import Mathlib

/-!
# Rigid transforms of colmap (`src/colmap/geometry/rigid3.h`)

The definitions are generic in the scalar type `F` and in the square root function,
and use only the arithmetic operations and the comparison of `F`, in the order of the
source.  They are instantiated twice: with `F64`, IEEE 754 binary64, which is the
type `double` of the program, and with the real numbers and `Real.sqrt`, which is the
program in exact real arithmetic.  The Eigen primitives used by `rigid3.h`
(quaternion product, `inverse`, `normalized`, quaternion-times-vector,
`toRotationMatrix`) are transcribed operation by operation from their Eigen
definitions, including the guards on a zero squared norm.
-/

namespace colmap

/-! ## Eigen value types -/

/-- Eigen::Vector3d with coefficients in `F`. -/
@[ext]
structure Vector3 (F : Type) where
  x : F
  y : F
  z : F
deriving DecidableEq

/-- Eigen::Vector4d with coefficients in `F` (homogeneous points). -/
@[ext]
structure Vector4 (F : Type) where
  x : F
  y : F
  z : F
  w : F
deriving DecidableEq

/-- Eigen::Matrix3d, entry `mij` is row `i`, column `j`. -/
@[ext]
structure Matrix3 (F : Type) where
  m00 : F
  m01 : F
  m02 : F
  m10 : F
  m11 : F
  m12 : F
  m20 : F
  m21 : F
  m22 : F
deriving DecidableEq

/-- Eigen::Matrix3x4d, entry `mij` is row `i`, column `j`. -/
@[ext]
structure Matrix3x4 (F : Type) where
  m00 : F
  m01 : F
  m02 : F
  m03 : F
  m10 : F
  m11 : F
  m12 : F
  m13 : F
  m20 : F
  m21 : F
  m22 : F
  m23 : F
deriving DecidableEq

/-- Eigen::Quaterniond with coefficients in `F`; the field order is the order of
the constructor `Quaterniond(w, x, y, z)`. -/
@[ext]
structure Quaterniond (F : Type) where
  w : F
  x : F
  y : F
  z : F
deriving DecidableEq

namespace Vector3

variable {F : Type} [One F] [NatCast F] [Add F] [Sub F] [Mul F] [Div F] [Neg F] [LT F]
  [∀ a b : F, Decidable (a < b)]

/-- Eigen::Vector3d::Zero(). -/
def Zero [Zero F] : Vector3 F := ⟨0, 0, 0⟩

/-- Coefficient-wise sum `a + b`. -/
def add (a b : Vector3 F) : Vector3 F := ⟨a.x + b.x, a.y + b.y, a.z + b.z⟩

/-- Coefficient-wise difference `a - b`. -/
def sub (a b : Vector3 F) : Vector3 F := ⟨a.x - b.x, a.y - b.y, a.z - b.z⟩

/-- Unary minus `-a`. -/
def neg (a : Vector3 F) : Vector3 F := ⟨-a.x, -a.y, -a.z⟩

/-- Scalar multiple `s * a`. -/
def scale (s : F) (a : Vector3 F) : Vector3 F := ⟨s * a.x, s * a.y, s * a.z⟩

/-- Cross product `a.cross(b)`. -/
def cross (a b : Vector3 F) : Vector3 F :=
  ⟨a.y * b.z - a.z * b.y, a.z * b.x - a.x * b.z, a.x * b.y - a.y * b.x⟩

/-- Squared Euclidean norm `a.squaredNorm()`. -/
def squaredNorm (a : Vector3 F) : F := a.x * a.x + a.y * a.y + a.z * a.z

/-- Homogeneous extension `a.homogeneous()`: a trailing coefficient 1 is appended. -/
def homogeneous (a : Vector3 F) : Vector4 F := ⟨a.x, a.y, a.z, 1⟩

end Vector3

namespace Matrix3

variable {F : Type} [Zero F] [One F] [NatCast F] [Add F] [Sub F] [Mul F] [Div F] [Neg F] [LT F]
  [∀ a b : F, Decidable (a < b)]

/-- Matrix-vector product of a 3x3 matrix and a 3-vector. -/
def mulVec (m : Matrix3 F) (v : Vector3 F) : Vector3 F :=
  ⟨m.m00 * v.x + m.m01 * v.y + m.m02 * v.z,
   m.m10 * v.x + m.m11 * v.y + m.m12 * v.z,
   m.m20 * v.x + m.m21 * v.y + m.m22 * v.z⟩

/-- Matrix product of two 3x3 matrices. -/
def mul (a b : Matrix3 F) : Matrix3 F :=
  ⟨a.m00 * b.m00 + a.m01 * b.m10 + a.m02 * b.m20,
   a.m00 * b.m01 + a.m01 * b.m11 + a.m02 * b.m21,
   a.m00 * b.m02 + a.m01 * b.m12 + a.m02 * b.m22,
   a.m10 * b.m00 + a.m11 * b.m10 + a.m12 * b.m20,
   a.m10 * b.m01 + a.m11 * b.m11 + a.m12 * b.m21,
   a.m10 * b.m02 + a.m11 * b.m12 + a.m12 * b.m22,
   a.m20 * b.m00 + a.m21 * b.m10 + a.m22 * b.m20,
   a.m20 * b.m01 + a.m21 * b.m11 + a.m22 * b.m21,
   a.m20 * b.m02 + a.m21 * b.m12 + a.m22 * b.m22⟩

/-- Transposed matrix. -/
def transpose (a : Matrix3 F) : Matrix3 F :=
  ⟨a.m00, a.m10, a.m20, a.m01, a.m11, a.m21, a.m02, a.m12, a.m22⟩

/-- Identity matrix. -/
def Identity : Matrix3 F := ⟨1, 0, 0, 0, 1, 0, 0, 0, 1⟩

/-- Determinant (cofactor expansion along the first row). -/
def determinant (a : Matrix3 F) : F :=
  a.m00 * (a.m11 * a.m22 - a.m12 * a.m21) - a.m01 * (a.m10 * a.m22 - a.m12 * a.m20)
    + a.m02 * (a.m10 * a.m21 - a.m11 * a.m20)

end Matrix3

namespace Matrix3x4

variable {F : Type} [Zero F] [One F] [NatCast F] [Add F] [Sub F] [Mul F] [Div F] [Neg F] [LT F]
  [∀ a b : F, Decidable (a < b)]

/-- Product of a 3x4 matrix with a 4-vector, as in
`rel_tforms[i] * points3D[i].homogeneous()`. -/
def mulVec (m : Matrix3x4 F) (v : Vector4 F) : Vector3 F :=
  ⟨m.m00 * v.x + m.m01 * v.y + m.m02 * v.z + m.m03 * v.w,
   m.m10 * v.x + m.m11 * v.y + m.m12 * v.z + m.m13 * v.w,
   m.m20 * v.x + m.m21 * v.y + m.m22 * v.z + m.m23 * v.w⟩

/-- Block `leftCols<3>()`. -/
def leftCols3 (m : Matrix3x4 F) : Matrix3 F :=
  ⟨m.m00, m.m01, m.m02, m.m10, m.m11, m.m12, m.m20, m.m21, m.m22⟩

/-- Column `col(3)`. -/
def col3 (m : Matrix3x4 F) : Vector3 F := ⟨m.m03, m.m13, m.m23⟩

end Matrix3x4

namespace Quaterniond

variable {F : Type} [Zero F] [One F] [NatCast F] [Add F] [Sub F] [Mul F] [Div F] [Neg F] [LT F]
  [∀ a b : F, Decidable (a < b)]

/-- Eigen::Quaterniond::Identity(), the quaternion (1,0,0,0). -/
def Identity : Quaterniond F := ⟨1, 0, 0, 0⟩

/-- The vector part `vec()` = (x, y, z). -/
def vec (q : Quaterniond F) : Vector3 F := ⟨q.x, q.y, q.z⟩

/-- Library primitive (Eigen) `squaredNorm()`: sum of the squares of the four
coefficients, stored in the order x, y, z, w. -/
def squaredNorm (q : Quaterniond F) : F := q.x * q.x + q.y * q.y + q.z * q.z + q.w * q.w

/-- Library primitive (Eigen) `norm()`: `sqrt(squaredNorm())`. -/
def norm (sqrt : F → F) (q : Quaterniond F) : F := sqrt q.squaredNorm

/-- Library primitive (Eigen) `conjugate()`: `Quaternion(w(), -x(), -y(), -z())`. -/
def conjugate (q : Quaterniond F) : Quaterniond F := ⟨q.w, -q.x, -q.y, -q.z⟩

/-- Library primitive (Eigen) `QuaternionBase::inverse()`:
`n2 = squaredNorm(); if (n2 > 0) return Quaternion(conjugate().coeffs() / n2);
else return Quaternion(Coefficients::Zero())`, the zero quaternion being "an invalid
result to flag the error". -/
def inverse (q : Quaterniond F) : Quaterniond F :=
  let n2 := q.squaredNorm
  if n2 > 0 then
    ⟨q.conjugate.w / n2, q.conjugate.x / n2, q.conjugate.y / n2, q.conjugate.z / n2⟩
  else ⟨0, 0, 0, 0⟩

/-- Library primitive (Eigen) `normalized()` on the coefficients:
`z = squaredNorm(); if (z > 0) return n / sqrt(z); else return n`. -/
def normalized (sqrt : F → F) (q : Quaterniond F) : Quaterniond F :=
  let z := q.squaredNorm
  if z > 0 then ⟨q.w / sqrt z, q.x / sqrt z, q.y / sqrt z, q.z / sqrt z⟩ else q

/-- Library primitive (Eigen) quaternion product `a * b` (Hamilton product), the
four coefficients in the order w, x, y, z as passed to the constructor. -/
def mul (a b : Quaterniond F) : Quaterniond F :=
  ⟨a.w * b.w - a.x * b.x - a.y * b.y - a.z * b.z,
   a.w * b.x + a.x * b.w + a.y * b.z - a.z * b.y,
   a.w * b.y + a.y * b.w + a.z * b.x - a.x * b.z,
   a.w * b.z + a.z * b.w + a.x * b.y - a.y * b.x⟩

/-- Library primitive (Eigen) quaternion-times-vector `q * v` (`_transformVector`):
`uv = vec().cross(v); uv += uv; return v + w() * uv + vec().cross(uv)`. -/
def transformVector (q : Quaterniond F) (v : Vector3 F) : Vector3 F :=
  let uv := q.vec.cross v
  let uv := uv.add uv
  (v.add (Vector3.scale q.w uv)).add (q.vec.cross uv)

/-- Library primitive (Eigen) `toRotationMatrix()`, with the temporaries `tx` ...
`tzz` of its definition. -/
def toRotationMatrix (q : Quaterniond F) : Matrix3 F :=
  let tx := 2 * q.x
  let ty := 2 * q.y
  let tz := 2 * q.z
  let twx := tx * q.w
  let twy := ty * q.w
  let twz := tz * q.w
  let txx := tx * q.x
  let txy := ty * q.x
  let txz := tz * q.x
  let tyy := ty * q.y
  let tyz := tz * q.y
  let tzz := tz * q.z
  ⟨1 - (tyy + tzz), txy - twz, txz + twy,
   txy + twz, 1 - (txx + tzz), tyz - twx,
   txz - twy, tyz + twx, 1 - (txx + tyy)⟩

end Quaterniond

/-! ## `struct Rigid3d` -/

/-- Rigid transform in 3D with 6 degrees of freedom (`struct Rigid3d`).
Transforms point x from a to b as: x_in_b = R * x_in_a + t. -/
@[ext]
structure Rigid3d (F : Type) where
  rotation : Quaterniond F
  translation : Vector3 F
deriving DecidableEq

namespace Rigid3d

variable {F : Type} [Zero F] [One F] [NatCast F] [Add F] [Sub F] [Mul F] [Div F] [Neg F] [LT F]
  [∀ a b : F, Decidable (a < b)]

/-- The defaulted constructor `Rigid3d()`: the member initialisers
`rotation = Quaterniond::Identity()` and `translation = Vector3d::Zero()`. -/
def default : Rigid3d F := ⟨Quaterniond.Identity, Vector3.Zero⟩

/-- Member function `Rigid3d::Inverse()`. -/
def Inverse (t : Rigid3d F) : Rigid3d F :=
  let inverse : Rigid3d F := default
  let inverse : Rigid3d F := { inverse with rotation := t.rotation.inverse }
  let inverse : Rigid3d F :=
    { inverse with translation := inverse.rotation.transformVector t.translation.neg }
  inverse

/-- Member function `Rigid3d::Matrix()`: the left three columns are
`rotation.toRotationMatrix()`, the fourth column is `translation`. -/
def Matrix (t : Rigid3d F) : Matrix3x4 F :=
  let r := t.rotation.toRotationMatrix
  ⟨r.m00, r.m01, r.m02, t.translation.x,
   r.m10, r.m11, r.m12, t.translation.y,
   r.m20, r.m21, r.m22, t.translation.z⟩

/-- Free function `operator*(const Rigid3d& t, const Eigen::Vector3d& x)`. -/
def mulPoint (t : Rigid3d F) (x : Vector3 F) : Vector3 F :=
  (t.rotation.transformVector x).add t.translation

/-- Free function `operator*(const Rigid3d& cFromB, const Rigid3d& bFromA)`. -/
def mul (sqrt : F → F) (cFromB bFromA : Rigid3d F) : Rigid3d F :=
  let cFromA : Rigid3d F := default
  let cFromA : Rigid3d F :=
    { cFromA with rotation := (cFromB.rotation.mul bFromA.rotation).normalized sqrt }
  let cFromA : Rigid3d F :=
    { cFromA with
      translation := cFromB.translation.add (cFromB.rotation.transformVector bFromA.translation) }
  cFromA

end Rigid3d

/-! ## The claimed composition, in the words of the specification -/

namespace Quaterniond

variable {F : Type} [Zero F] [One F] [NatCast F] [Add F] [Sub F] [Mul F] [Div F] [Neg F] [LT F]
  [∀ a b : F, Decidable (a < b)]

/-- Coefficient-wise multiple `s * q` of a quaternion. -/
def scale (s : F) (q : Quaterniond F) : Quaterniond F := ⟨s * q.w, s * q.x, s * q.y, s * q.z⟩

end Quaterniond

namespace Rigid3d

variable {F : Type} [Zero F] [One F] [NatCast F] [Add F] [Sub F] [Mul F] [Div F] [Neg F] [LT F]
  [∀ a b : F, Decidable (a < b)]

/-- The composition as the specification words it: the rotation is the quaternion
product "renormalized" to unit length, that is rescaled by the reciprocal of its
norm, and the translation is `cFromB.translation + cFromB.rotation · bFromA.translation`,
the rotation acting as its rotation matrix. A product of norm zero cannot be rescaled
to unit length: the wording gives no result (`none`) for it. -/
def composeSpec (sqrt : F → F) (cFromB bFromA : Rigid3d F) : Option (Rigid3d F) :=
  if 0 < (cFromB.rotation.mul bFromA.rotation).norm sqrt then
    some
      { rotation :=
          Quaterniond.scale (1 / (cFromB.rotation.mul bFromA.rotation).norm sqrt)
            (cFromB.rotation.mul bFromA.rotation)
        translation :=
          cFromB.translation.add (cFromB.rotation.toRotationMatrix.mulVec bFromA.translation) }
  else none

/-- The values of type `Rigid3d` obtainable by the four ways of creating one:
the defaulted constructor, the two-argument constructor (any arguments),
`Inverse()` and `operator*`. -/
inductive Created (sqrt : F → F) : Rigid3d F → Prop
  | default : Created sqrt Rigid3d.default
  | ctor (rotation : Quaterniond F) (translation : Vector3 F) :
      Created sqrt (Rigid3d.mk rotation translation)
  | Inverse (t : Rigid3d F) : Created sqrt t → Created sqrt t.Inverse
  | mul (cFromB bFromA : Rigid3d F) :
      Created sqrt cFromB → Created sqrt bFromA → Created sqrt (Rigid3d.mul sqrt cFromB bFromA)

/-- The values of type `Rigid3d` obtainable as in `Created`, the two-argument
constructor being called with a rotation of norm 1 only. -/
inductive CreatedFromUnit (sqrt : F → F) : Rigid3d F → Prop
  | default : CreatedFromUnit sqrt Rigid3d.default
  | ctor (rotation : Quaterniond F) (translation : Vector3 F) :
      rotation.norm sqrt = 1 → CreatedFromUnit sqrt (Rigid3d.mk rotation translation)
  | Inverse (t : Rigid3d F) : CreatedFromUnit sqrt t → CreatedFromUnit sqrt t.Inverse
  | mul (cFromB bFromA : Rigid3d F) :
      CreatedFromUnit sqrt cFromB → CreatedFromUnit sqrt bFromA →
        CreatedFromUnit sqrt (Rigid3d.mul sqrt cFromB bFromA)

end Rigid3d

/-! ## The rig of `TEST(GeneralizedRelativePose, Estimate)` -/

section test

variable {F : Type} [Zero F] [One F] [NatCast F] [Add F] [Sub F] [Mul F] [Div F] [Neg F] [LT F]
  [∀ a b : F, Decidable (a < b)]

/-- Constant `kRefTform` of the test. -/
def kRefTform : Fin 3 := 1

/-- The array `testCamFromWorlds` of the test, for the loop variables `qx`, `tx`;
the decimal literals 0.05, 0.1, 0.2, 0.3 are the corresponding fractions. -/
def testCamFromWorlds (sqrt : F → F) (qx tx : F) : Fin 3 → Rigid3d F
  | 0 => Rigid3d.mk ((Quaterniond.mk 1 qx 0 0).normalized sqrt) (Vector3.mk tx (1 / 10) 0)
  | 1 => Rigid3d.mk ((Quaterniond.mk 1 (qx + 5 / 100) 0 0).normalized sqrt)
      (Vector3.mk tx (2 / 10) 0)
  | 2 => Rigid3d.mk ((Quaterniond.mk 1 (qx + 1 / 10) 0 0).normalized sqrt)
      (Vector3.mk tx (3 / 10) 0)

/-- The local `iFromRef` of the test's loop over `i`:
`testCamFromWorlds[i] * testCamFromWorlds[kRefTform].Inverse()`. -/
def iFromRef (sqrt : F → F) (qx tx : F) (i : Fin 3) : Rigid3d F :=
  Rigid3d.mul sqrt (testCamFromWorlds sqrt qx tx i) (testCamFromWorlds sqrt qx tx kRefTform).Inverse

/-- The array `rel_tforms` of the test: `rel_tforms[i] = iFromRef.Matrix()`. -/
def rel_tforms (sqrt : F → F) (qx tx : F) (i : Fin 3) : Matrix3x4 F :=
  (iFromRef sqrt qx tx i).Matrix

end test

/-! ## The robust estimation engine

The engine (`LORANSAC`), its sampler and the estimator `GR6PEstimator` are not part
of the available sources; only their caller, the test, is.  The definitions of this
section follow sections 3, 4.3, 4.4, 6 and 7 of the specification.  Two aligned
sequences `points1`, `points2` are represented as one sequence of pairs. -/

namespace ransac

/-- Modelled from the spec: the minimal-solver estimator interface (section 6),
`MinimalSampleSize: int`, `Estimate(minimal_subset) → [Model]`,
`Residuals(full_set, Model) → [double]`; the estimator itself is missing from the
sources. A residual `none` stands for a non-finite value. -/
structure Estimator (P M : Type) where
  MinimalSampleSize : Nat
  Estimate : List P → List M
  Residuals : List P → M → List (Option ℚ)

/-- Modelled from the spec: the recognised configuration options (section 6),
`max_error`, `min_inlier_ratio`, `confidence`, `max_num_trials`, and local
optimisation enabled or disabled with its maximal number of iterations; the type
`RANSACOptions` is missing from the sources. -/
structure RANSACOptions where
  max_error : ℚ
  min_inlier_ratio : ℚ
  confidence : ℚ
  max_num_trials : Nat
  local_optimization : Bool
  max_lo_iterations : Nat

/-- Modelled from the spec: the report (sections 3 and 6), `success`, `model`,
support size and inlier mask, number of trials executed; the report type is missing
from the sources. -/
structure Report (M : Type) where
  success : Bool
  model : M
  num_inliers : Nat
  inlier_mask : List Bool
  num_trials : Nat

/-- Modelled from the spec: the parts of the engine that the specification leaves to
the implementer and that are missing from the sources: the seeded random source of
the sampler (`draw seed k n` gives `k` indices below `n` and the next seed), the
stopping-time formula `trials_needed = log(1 − confidence) / log(1 − inlier_ratio^MinimalSampleSize)`
as a function of confidence, inlier ratio and sample size, the pessimistic
inlier-ratio guess of the initial budget, the seed, and the caller-visible default
model. -/
structure Numerics (M : Type) where
  draw : Nat → Nat → Nat → List Nat × Nat
  trialsNeeded : ℚ → ℚ → Nat → Nat
  pessimisticInlierRatio : ℚ
  seed : Nat
  defaultModel : M

/-- Modelled from the spec: the best model so far with its support and inlier
mask (section 4.4, "best model/support"). -/
structure Best (M : Type) where
  model : M
  support : Nat
  inlier_mask : List Bool

/-- Modelled from the spec: the state of one `Estimate` call (section 4.4): trial
counter, best model and support (`none` is "best support = −∞; best model = none"),
the trial budget, the sampler's seed; `generated` records every candidate model
produced by `Estimator.Estimate` during the call. -/
structure State (M : Type) where
  trial : Nat
  best : Option (Best M)
  budget : Nat
  seed : Nat
  generated : List M

variable {P M : Type}

/-- Modelled from the spec: the sampler (section 4.3), missing from the sources:
"Draws `MinimalSampleSize` distinct indices ... from `[0, N)`. ... Fails (returns no
sample / signals exhaustion) if `N < MinimalSampleSize`." -/
def Sample (num : Numerics M) (k n seed : Nat) : Option (List Nat × Nat) :=
  if n < k then none else some (num.draw seed k n)

/-- Modelled from the spec: the inlier mask of a residual sequence (sections 4.4
and 7): an inlier has residual ≤ `max_error`; a non-finite residual is "not an
inlier". -/
def inlierMask (opts : RANSACOptions) (residuals : List (Option ℚ)) : List Bool :=
  residuals.map fun r =>
    match r with
    | some e => decide (e ≤ opts.max_error)
    | none => false

/-- Modelled from the spec: **Init** (section 4.4): "trial counter = 0; best support
= −∞; best model = none; compute initial max-trials from configured confidence and a
pessimistic inlier-ratio guess", under the hard upper bound `max_num_trials`. -/
def Init (est : Estimator P M) (opts : RANSACOptions) (num : Numerics M) : State M :=
  { trial := 0
    best := none
    budget := min opts.max_num_trials
      (num.trialsNeeded opts.confidence num.pessimisticInlierRatio est.MinimalSampleSize)
    seed := num.seed
    generated := [] }

/-- Modelled from the spec: **Score** (section 4.4): residuals against the full
correspondence set, inliers counted as residual ≤ `max_error`; a strictly greater
support replaces the best model and the trial budget is recomputed downward, never
upward; equal support does not replace. -/
def Score (est : Estimator P M) (opts : RANSACOptions) (num : Numerics M) (data : List P)
    (s : State M) (candidate : M) : State M :=
  let mask := inlierMask opts (est.Residuals data candidate)
  let support := mask.count true
  let improves : Bool :=
    match s.best with
    | none => true
    | some b => decide (b.support < support)
  if improves then
    { s with
      best := some ⟨candidate, support, mask⟩
      budget := min s.budget
        (num.trialsNeeded opts.confidence ((support : ℚ) / (data.length : ℚ))
          est.MinimalSampleSize) }
  else s

/-- The correspondences selected by a mask. -/
def select (data : List P) (mask : List Bool) : List P :=
  ((data.zip mask).filter fun pm => pm.2).map fun pm => pm.1

/-- Modelled from the spec: **Local Optimization** (section 4.4): the estimator is
re-run on the current best inlier set, each candidate is scored, "an improved model
from this step also updates best support/model and may further shrink the trial
budget"; the iteration is bounded by its first argument and stops when the support
did not improve. -/
def LocalOptimization (est : Estimator P M) (opts : RANSACOptions) (num : Numerics M)
    (data : List P) : Nat → State M → State M
  | 0, s => s
  | n + 1, s =>
    match s.best with
    | none => s
    | some b =>
      let candidates := est.Estimate (select data b.inlier_mask)
      let s1 : State M := { s with generated := s.generated ++ candidates }
      let s2 := candidates.foldl (Score est opts num data) s1
      match s2.best with
      | none => s2
      | some b2 =>
        if b.support < b2.support then LocalOptimization est opts num data n s2 else s2

/-- Modelled from the spec: **Score** followed by **Local Optimization (on
improvement)** for one candidate of a trial. -/
def ScoreCandidate (est : Estimator P M) (opts : RANSACOptions) (num : Numerics M)
    (data : List P) (s : State M) (candidate : M) : State M :=
  let s1 := Score est opts num data s candidate
  let improved : Bool :=
    match s.best, s1.best with
    | none, some _ => true
    | some b, some b1 => decide (b.support < b1.support)
    | _, none => false
  if improved && opts.local_optimization then
    LocalOptimization est opts num data opts.max_lo_iterations s1
  else s1

/-- Modelled from the spec: **Loop** (section 4.4): "continue Sample→Generate→Score
until trial counter reaches the (adaptively shrinking) budget or the sampler is
exhausted". The first argument bounds the number of trials (`max_num_trials`, the
"hard upper bound on trials"). **Sample** draws a minimal subset; an exhausted
sampler ends the loop. **Generate** runs `Estimator.Estimate` on the subset; zero
candidates return to **Sample**, otherwise each candidate is scored. -/
def Loop (est : Estimator P M) (opts : RANSACOptions) (num : Numerics M) (data : List P) :
    Nat → State M → State M
  | 0, s => s
  | n + 1, s =>
    if s.trial < s.budget then
      match Sample num est.MinimalSampleSize data.length s.seed with
      | none => s
      | some (indices, seed1) =>
        let subset := indices.filterMap fun i => data[i]?
        let candidates := est.Estimate subset
        let s1 : State M :=
          { s with trial := s.trial + 1, seed := seed1, generated := s.generated ++ candidates }
        Loop est opts num data n (candidates.foldl (ScoreCandidate est opts num data) s1)
    else s

/-- Modelled from the spec: **Terminate** (section 4.4): "`success = true` iff a
best model exists meeting the minimum inlier-ratio configuration; otherwise
`success = false` with `model` left at a caller-visible default (e.g. identity) and
support = 0". -/
def Terminate (opts : RANSACOptions) (num : Numerics M) (data : List P) (s : State M) :
    Report M :=
  match s.best with
  | some b =>
    if opts.min_inlier_ratio * (data.length : ℚ) ≤ (b.support : ℚ) then
      { success := true, model := b.model, num_inliers := b.support
        inlier_mask := b.inlier_mask, num_trials := s.trial }
    else
      { success := false, model := num.defaultModel, num_inliers := 0
        inlier_mask := data.map fun _ => false, num_trials := s.trial }
  | none =>
    { success := false, model := num.defaultModel, num_inliers := 0
      inlier_mask := data.map fun _ => false, num_trials := s.trial }

/-- Modelled from the spec: the final state of one `Estimate` call, **Init**
followed by the **Loop**. -/
def Run (est : Estimator P M) (opts : RANSACOptions) (num : Numerics M) (data : List P) :
    State M :=
  Loop est opts num data opts.max_num_trials (Init est opts num)

/-- Modelled from the spec: the engine's `Estimate` (section 4.4), which "always
returns a Report" (section 7). -/
def Estimate (est : Estimator P M) (opts : RANSACOptions) (num : Numerics M) (data : List P) :
    Report M :=
  Terminate opts num data (Run est opts num data)

end ransac

/-! ## Distances and the composition without renormalisation -/

namespace Vector3

variable {F : Type} [One F] [NatCast F] [Add F] [Sub F] [Mul F] [Div F] [Neg F] [LT F]
  [∀ a b : F, Decidable (a < b)]

/-- Library primitive (Eigen) `norm()` of a 3-vector: `sqrt(squaredNorm())`. -/
def norm (sqrt : F → F) (a : Vector3 F) : F := sqrt a.squaredNorm

/-- Euclidean distance between two points, `(a - b).norm()`. -/
def distance (sqrt : F → F) (a b : Vector3 F) : F := (a.sub b).norm sqrt

end Vector3

namespace Rigid3d

variable {F : Type} [Zero F] [One F] [NatCast F] [Add F] [Sub F] [Mul F] [Div F] [Neg F] [LT F]
  [∀ a b : F, Decidable (a < b)]

/-- The body of `operator*(const Rigid3d&, const Rigid3d&)` with the call of
`.normalized()` left out: the rotation is the bare quaternion product. It is the
second term of the comparison "with or without the renormalisation step". -/
def mulWithoutNormalized (cFromB bFromA : Rigid3d F) : Rigid3d F :=
  let cFromA : Rigid3d F := default
  let cFromA : Rigid3d F := { cFromA with rotation := cFromB.rotation.mul bFromA.rotation }
  let cFromA : Rigid3d F :=
    { cFromA with
      translation := cFromB.translation.add (cFromB.rotation.transformVector bFromA.translation) }
  cFromA

end Rigid3d

/-! ## The scalar type `double`

`Rigid3d` stores `double` coefficients. The type `F64` below is IEEE 754 binary64
with the default rounding (to nearest, ties to even): every operation returns the
exactly computed result rounded to 53 significant binary digits, with gradual
underflow below `2^-1022` and overflow to an infinity from `2^1024` on. The sign of a
zero is not represented; it can only be observed by dividing by the zero, which no
operation of `rigid3.h` does (`inverse()` and `normalized()` divide by a positive
number only). Instantiating the definitions above with `F64` and `F64.sqrt` gives the
program as it runs; instantiating them with the reals and `Real.sqrt` gives the
program in exact real arithmetic. -/

/-- The values of the type `double` (IEEE 754 binary64): `finite m e` is the number
`m * 2^e`, written with `m` odd, or with `m = 0` and `e = 0` for zero; the two
infinities; and NaN. -/
inductive F64 where
  | finite (m : Int) (e : Int)
  | inf (negative : Bool)
  | nan
deriving DecidableEq

namespace F64

/-- Auxiliary function of `bitLength`, by recursion on a bound of the number of
digits. -/
def bitLengthAux : Nat → Nat → Nat
  | 0, _ => 0
  | fuel + 1, n => if n = 0 then 0 else bitLengthAux fuel (n / 2) + 1

/-- Number of binary digits of `n` (0 for 0): the least `k` with `n < 2^k`. -/
def bitLength (n : Nat) : Nat := bitLengthAux n n

/-- The integer nearest to `n / 2^s`, a tie going to the even one. -/
def roundShift (n s : Nat) : Nat :=
  let q := n / 2 ^ s
  let r := n % 2 ^ s
  if 2 ^ s < 2 * r ∨ (2 * r = 2 ^ s ∧ q % 2 = 1) then q + 1 else q

/-- Auxiliary function of `normalize`: removes the trailing zero digits of `n`,
raising the exponent by one for each. -/
def stripAux : Nat → Nat → Int → Nat × Int
  | 0, n, e => (n, e)
  | fuel + 1, n, e => if n % 2 = 0 then stripAux fuel (n / 2) (e + 1) else (n, e)

/-- The value `± n * 2^e` written with an odd mantissa. -/
def normalize (negative : Bool) (n : Nat) (e : Int) : F64 :=
  if n = 0 then finite 0 0
  else
    let p := stripAux n n e
    finite (if negative then -(p.1 : Int) else (p.1 : Int)) p.2

/-- Rounding of the exact value `± n * 2^e` to binary64. The unit in the last place
has exponent `q`, 53 digits below the leading digit of `n * 2^e` and at least `-1074`;
digits below it are rounded away to nearest, ties to even; a result of magnitude
`2^1024` or more is an infinity. -/
def round (negative : Bool) (n : Nat) (e : Int) : F64 :=
  if n = 0 then finite 0 0
  else
    let q : Int := max (e + (bitLength n : Int) - 53) (-1074)
    let m : Nat := if q ≤ e then n else roundShift n (q - e).toNat
    let e1 : Int := if q ≤ e then e else q
    if 1024 < (bitLength m : Int) + e1 then inf negative else normalize negative m e1

/-- Unary minus. -/
def neg : F64 → F64
  | finite m e => finite (-m) e
  | inf s => inf (!s)
  | nan => nan

/-- Addition: the exact sum, rounded. -/
def add : F64 → F64 → F64
  | finite m1 e1, finite m2 e2 =>
    let e := min e1 e2
    let m : Int := m1 * (2 ^ (e1 - e).toNat : Nat) + m2 * (2 ^ (e2 - e).toNat : Nat)
    round (decide (m < 0)) m.natAbs e
  | finite _ _, inf s => inf s
  | inf s, finite _ _ => inf s
  | inf s, inf t => if s = t then inf s else nan
  | _, _ => nan

/-- Subtraction `a - b`, the sum of `a` and `-b`. -/
def sub (a b : F64) : F64 := add a (neg b)

/-- Multiplication: the exact product, rounded. -/
def mul : F64 → F64 → F64
  | finite m1 e1, finite m2 e2 => round (decide (m1 * m2 < 0)) (m1 * m2).natAbs (e1 + e2)
  | finite m _, inf s => if m = 0 then nan else inf (xor (decide (m < 0)) s)
  | inf s, finite m _ => if m = 0 then nan else inf (xor s (decide (m < 0)))
  | inf s, inf t => inf (xor s t)
  | _, _ => nan

/-- Division: the exact quotient, rounded. The quotient of the mantissas is computed
to at least 64 digits, with one more digit that records a non-zero remainder. A zero
divisor is taken as `+0`. -/
def div : F64 → F64 → F64
  | finite m1 e1, finite m2 e2 =>
    if m2 = 0 then (if m1 = 0 then nan else inf (decide (m1 < 0)))
    else
      let p : Nat := bitLength m2.natAbs + 64
      let num : Nat := m1.natAbs * 2 ^ p
      let q : Nat := num / m2.natAbs
      let sticky : Nat := if num % m2.natAbs = 0 then 0 else 1
      round (xor (decide (m1 < 0)) (decide (m2 < 0))) (2 * q + sticky) (e1 - e2 - (p : Int) - 1)
  | finite _ _, inf _ => finite 0 0
  | inf s, finite m _ => inf (xor s (decide (m < 0)))
  | _, _ => nan

/-- Auxiliary function of `isqrt`: the binary digits of the root from digit `k - 1`
down to digit 0, `r` being the digits found so far. -/
def isqrtAux (n : Nat) : Nat → Nat → Nat
  | 0, r => r
  | k + 1, r => if (r + 2 ^ k) * (r + 2 ^ k) ≤ n then isqrtAux n k (r + 2 ^ k) else isqrtAux n k r

/-- Integer square root: the greatest `r` with `r * r ≤ n`. -/
def isqrt (n : Nat) : Nat := isqrtAux n (bitLength n) 0

/-- Square root (`std::sqrt`): the exact root, rounded. The root of the mantissa,
scaled by an even power of two, is computed to at least 64 digits, with one more
digit that records an inexact root. -/
def sqrt : F64 → F64
  | finite m e =>
    if m < 0 then nan
    else if m = 0 then finite 0 0
    else
      let p : Nat := 128 + (e % 2).toNat
      let n : Nat := m.natAbs * 2 ^ p
      let s : Nat := isqrt n
      let sticky : Nat := if s * s = n then 0 else 1
      round false (2 * s + sticky) ((e - (p : Int)) / 2 - 1)
  | inf s => if s then nan else inf false
  | nan => nan

/-- Comparison `a < b`; false when an operand is NaN. -/
def lt : F64 → F64 → Bool
  | finite m1 e1, finite m2 e2 =>
    let e := min e1 e2
    decide (m1 * (2 ^ (e1 - e).toNat : Nat) < m2 * (2 ^ (e2 - e).toNat : Nat))
  | finite _ _, inf s => !s
  | inf s, finite _ _ => s
  | inf s, inf t => s && !t
  | _, _ => false

instance : Zero F64 := ⟨finite 0 0⟩

instance : One F64 := ⟨finite 1 0⟩

instance : NatCast F64 := ⟨fun n => round false n 0⟩

instance : Add F64 := ⟨add⟩

instance : Sub F64 := ⟨sub⟩

instance : Mul F64 := ⟨mul⟩

instance : Div F64 := ⟨div⟩

instance : Neg F64 := ⟨neg⟩

instance : LT F64 := ⟨fun a b => lt a b = true⟩

instance (a b : F64) : Decidable (a < b) := inferInstanceAs (Decidable (lt a b = true))

end F64

/-! ## Helper lemmas -/

section lemmas

variable {F : Type} [LinearOrderedField F]

theorem Quaterniond.squaredNorm_mul (a b : Quaterniond F) :
    (a.mul b).squaredNorm = a.squaredNorm * b.squaredNorm := by
  simp only [Quaterniond.mul, Quaterniond.squaredNorm]
  ring

theorem Quaterniond.mul_assoc (a b c : Quaterniond F) :
    (a.mul b).mul c = a.mul (b.mul c) := by
  ext <;> simp only [Quaterniond.mul] <;> ring

theorem Quaterniond.normalized_of_unit (sqrt : F → F) (hs : sqrt 1 = 1) (q : Quaterniond F)
    (hq : q.squaredNorm = 1) : q.normalized sqrt = q := by
  simp [Quaterniond.normalized, hq, hs]

theorem Quaterniond.inverse_of_unit (q : Quaterniond F) (hq : q.squaredNorm = 1) :
    q.inverse = q.conjugate := by
  simp [Quaterniond.inverse, hq]

theorem Quaterniond.squaredNorm_conjugate (q : Quaterniond F) :
    q.conjugate.squaredNorm = q.squaredNorm := by
  simp only [Quaterniond.conjugate, Quaterniond.squaredNorm]
  ring

theorem Quaterniond.transformVector_mul (a b : Quaterniond F) (v : Vector3 F)
    (ha : a.squaredNorm = 1) (hb : b.squaredNorm = 1) :
    (a.mul b).transformVector v = a.transformVector (b.transformVector v) := by
  obtain ⟨aw, ax, ay, az⟩ := a
  obtain ⟨bw, bx, b_y, bz⟩ := b
  obtain ⟨vx, vy, vz⟩ := v
  simp only [Quaterniond.squaredNorm] at ha hb
  simp only [Quaterniond.transformVector, Quaterniond.mul, Quaterniond.vec, Vector3.cross,
    Vector3.add, Vector3.scale, Vector3.mk.injEq]
  refine ⟨?_, ?_, ?_⟩
  · linear_combination (((1 - 2*(b_y*b_y+bz*bz))*vx + (2*bx*b_y - 2*bw*bz)*vy + (2*bx*bz + 2*bw*b_y)*vz) - (bx*bx+b_y*b_y+bz*bz+bw*bw)*vx) * ha + (((1 - 2*(ay*ay+az*az))*vx + (2*ax*ay - 2*aw*az)*vy + (2*ax*az + 2*aw*ay)*vz) + ((ax*ax+ay*ay+az*az+aw*aw) - 2)*vx) * hb
  · linear_combination (((2*bx*b_y + 2*bw*bz)*vx + (1 - 2*(bx*bx+bz*bz))*vy + (2*b_y*bz - 2*bw*bx)*vz) - (bx*bx+b_y*b_y+bz*bz+bw*bw)*vy) * ha + (((2*ax*ay + 2*aw*az)*vx + (1 - 2*(ax*ax+az*az))*vy + (2*ay*az - 2*aw*ax)*vz) + ((ax*ax+ay*ay+az*az+aw*aw) - 2)*vy) * hb
  · linear_combination (((2*bx*bz - 2*bw*b_y)*vx + (2*b_y*bz + 2*bw*bx)*vy + (1 - 2*(bx*bx+b_y*b_y))*vz) - (bx*bx+b_y*b_y+bz*bz+bw*bw)*vz) * ha + (((2*ax*az - 2*aw*ay)*vx + (2*ay*az + 2*aw*ax)*vy + (1 - 2*(ax*ax+ay*ay))*vz) + ((ax*ax+ay*ay+az*az+aw*aw) - 2)*vz) * hb

theorem Quaterniond.norm_eq_one_iff (q : Quaterniond ℝ) :
    q.norm Real.sqrt = 1 ↔ q.squaredNorm = 1 := by
  unfold Quaterniond.norm
  exact Real.sqrt_eq_one

theorem Quaterniond.squaredNorm_nonneg (q : Quaterniond F) : 0 ≤ q.squaredNorm := by
  unfold Quaterniond.squaredNorm
  have h1 := mul_self_nonneg q.x
  have h2 := mul_self_nonneg q.y
  have h3 := mul_self_nonneg q.z
  have h4 := mul_self_nonneg q.w
  linarith

theorem Quaterniond.eq_zero_of_squaredNorm (q : Quaterniond F) (h : q.squaredNorm = 0) :
    q = ⟨0, 0, 0, 0⟩ := by
  unfold Quaterniond.squaredNorm at h
  have h1 := mul_self_nonneg q.x
  have h2 := mul_self_nonneg q.y
  have h3 := mul_self_nonneg q.z
  have h4 := mul_self_nonneg q.w
  have hx : q.x * q.x = 0 := by linarith
  have hy : q.y * q.y = 0 := by linarith
  have hz : q.z * q.z = 0 := by linarith
  have hw : q.w * q.w = 0 := by linarith
  ext
  · exact mul_self_eq_zero.mp hw
  · exact mul_self_eq_zero.mp hx
  · exact mul_self_eq_zero.mp hy
  · exact mul_self_eq_zero.mp hz

theorem Quaterniond.squaredNorm_normalized (sqrt : F → F) (q : Quaterniond F)
    (h : 0 < q.squaredNorm)
    (hs : sqrt q.squaredNorm * sqrt q.squaredNorm = q.squaredNorm) :
    (q.normalized sqrt).squaredNorm = 1 := by
  have hne : sqrt q.squaredNorm ≠ 0 := by
    intro h0
    rw [h0] at hs
    simp at hs
    exact absurd hs.symm (ne_of_gt h)
  have hz : q.x * q.x + q.y * q.y + q.z * q.z + q.w * q.w = q.squaredNorm := rfl
  simp only [Quaterniond.normalized, h, if_true]
  simp only [Quaterniond.squaredNorm] at hs hne hz ⊢
  field_simp
  nlinarith [hs, hz]

theorem Quaterniond.squaredNorm_normalized_real (q : Quaterniond ℝ) (h : 0 < q.squaredNorm) :
    (q.normalized Real.sqrt).squaredNorm = 1 :=
  Quaterniond.squaredNorm_normalized Real.sqrt q h (Real.mul_self_sqrt (le_of_lt h))

theorem Quaterniond.mul_conjugate (q : Quaterniond F) :
    q.mul q.conjugate = ⟨q.squaredNorm, 0, 0, 0⟩ := by
  ext <;> simp only [Quaterniond.mul, Quaterniond.conjugate, Quaterniond.squaredNorm] <;> ring

theorem Quaterniond.conjugate_mul (q : Quaterniond F) :
    q.conjugate.mul q = ⟨q.squaredNorm, 0, 0, 0⟩ := by
  ext <;> simp only [Quaterniond.mul, Quaterniond.conjugate, Quaterniond.squaredNorm] <;> ring

theorem Quaterniond.transformVector_Identity (v : Vector3 F) :
    (⟨1, 0, 0, 0⟩ : Quaterniond F).transformVector v = v := by
  ext <;> simp [Quaterniond.transformVector, Quaterniond.vec, Vector3.cross, Vector3.add,
    Vector3.scale]

theorem Quaterniond.transformVector_add (q : Quaterniond F) (u v : Vector3 F) :
    q.transformVector (u.add v) = (q.transformVector u).add (q.transformVector v) := by
  ext <;> simp only [Quaterniond.transformVector, Quaterniond.vec, Vector3.cross, Vector3.add,
    Vector3.scale] <;> ring

theorem Quaterniond.transformVector_neg (q : Quaterniond F) (v : Vector3 F) :
    q.transformVector v.neg = (q.transformVector v).neg := by
  ext <;> simp only [Quaterniond.transformVector, Quaterniond.vec, Vector3.cross, Vector3.add,
    Vector3.scale, Vector3.neg] <;> ring

theorem Quaterniond.transformVector_eq_mulVec (q : Quaterniond F) (v : Vector3 F) :
    q.transformVector v = q.toRotationMatrix.mulVec v := by
  ext <;> simp only [Quaterniond.transformVector, Quaterniond.vec, Vector3.cross, Vector3.add,
    Vector3.scale, Quaterniond.toRotationMatrix, Matrix3.mulVec] <;> ring

theorem Quaterniond.transformVector_conjugate_cancel (q : Quaterniond F) (v : Vector3 F)
    (hq : q.squaredNorm = 1) :
    q.conjugate.transformVector (q.transformVector v) = v := by
  rw [← Quaterniond.transformVector_mul _ _ _
    ((Quaterniond.squaredNorm_conjugate q).trans hq) hq, Quaterniond.conjugate_mul, hq]
  exact Quaterniond.transformVector_Identity v

theorem Quaterniond.transformVector_cancel_conjugate (q : Quaterniond F) (v : Vector3 F)
    (hq : q.squaredNorm = 1) :
    q.transformVector (q.conjugate.transformVector v) = v := by
  rw [← Quaterniond.transformVector_mul _ _ _ hq
    ((Quaterniond.squaredNorm_conjugate q).trans hq), Quaterniond.mul_conjugate, hq]
  exact Quaterniond.transformVector_Identity v

theorem Vector3.add_assoc (a b c : Vector3 F) : (a.add b).add c = a.add (b.add c) := by
  ext <;> simp only [Vector3.add] <;> ring

theorem Vector3.add_neg_cancel (a : Vector3 F) : a.add a.neg = ⟨0, 0, 0⟩ := by
  ext <;> simp [Vector3.add, Vector3.neg]

theorem Vector3.neg_add_cancel (a : Vector3 F) : a.neg.add a = ⟨0, 0, 0⟩ := by
  ext <;> simp [Vector3.add, Vector3.neg]

theorem Vector3.add_zero (a : Vector3 F) : a.add ⟨0, 0, 0⟩ = a := by
  ext <;> simp [Vector3.add]

theorem Rigid3d.mul_of_unit (sqrt : F → F) (hs : sqrt 1 = 1) (c b : Rigid3d F)
    (hc : c.rotation.squaredNorm = 1) (hb : b.rotation.squaredNorm = 1) :
    Rigid3d.mul sqrt c b =
      ⟨c.rotation.mul b.rotation, c.translation.add (c.rotation.transformVector b.translation)⟩ := by
  have hp : (c.rotation.mul b.rotation).squaredNorm = 1 := by
    rw [Quaterniond.squaredNorm_mul, hc, hb, mul_one]
  simp only [Rigid3d.mul, Quaterniond.normalized_of_unit sqrt hs _ hp]

theorem Rigid3d.Inverse_of_unit (t : Rigid3d F) (ht : t.rotation.squaredNorm = 1) :
    t.Inverse = ⟨t.rotation.conjugate, t.rotation.conjugate.transformVector t.translation.neg⟩ := by
  simp only [Rigid3d.Inverse, Quaterniond.inverse_of_unit _ ht]

theorem Rigid3d.squaredNorm_mul_of_unit (sqrt : F → F) (hs : sqrt 1 = 1) (c b : Rigid3d F)
    (hc : c.rotation.squaredNorm = 1) (hb : b.rotation.squaredNorm = 1) :
    (Rigid3d.mul sqrt c b).rotation.squaredNorm = 1 := by
  rw [Rigid3d.mul_of_unit sqrt hs c b hc hb]
  show (c.rotation.mul b.rotation).squaredNorm = 1
  rw [Quaterniond.squaredNorm_mul, hc, hb, mul_one]

theorem Rigid3d.squaredNorm_Inverse_of_unit (t : Rigid3d F) (ht : t.rotation.squaredNorm = 1) :
    t.Inverse.rotation.squaredNorm = 1 := by
  rw [Rigid3d.Inverse_of_unit t ht]
  show t.rotation.conjugate.squaredNorm = 1
  rw [Quaterniond.squaredNorm_conjugate, ht]

theorem Rigid3d.mul_Inverse_of_unit (sqrt : F → F) (hs : sqrt 1 = 1) (t : Rigid3d F)
    (ht : t.rotation.squaredNorm = 1) :
    Rigid3d.mul sqrt t t.Inverse = ⟨⟨1, 0, 0, 0⟩, ⟨0, 0, 0⟩⟩ := by
  rw [Rigid3d.mul_of_unit sqrt hs t t.Inverse ht (Rigid3d.squaredNorm_Inverse_of_unit t ht),
    Rigid3d.Inverse_of_unit t ht]
  simp only [Quaterniond.mul_conjugate, ht, Quaterniond.transformVector_cancel_conjugate _ _ ht,
    Vector3.add_neg_cancel]

theorem Rigid3d.mul_assoc_of_unit (sqrt : F → F) (hs : sqrt 1 = 1) (a b c : Rigid3d F)
    (ha : a.rotation.squaredNorm = 1) (hb : b.rotation.squaredNorm = 1)
    (hc : c.rotation.squaredNorm = 1) :
    Rigid3d.mul sqrt (Rigid3d.mul sqrt c b) a = Rigid3d.mul sqrt c (Rigid3d.mul sqrt b a) := by
  have hcb := Rigid3d.squaredNorm_mul_of_unit sqrt hs c b hc hb
  have hba := Rigid3d.squaredNorm_mul_of_unit sqrt hs b a hb ha
  rw [Rigid3d.mul_of_unit sqrt hs _ a hcb ha, Rigid3d.mul_of_unit sqrt hs c _ hc hba,
    Rigid3d.mul_of_unit sqrt hs c b hc hb, Rigid3d.mul_of_unit sqrt hs b a hb ha]
  simp only [Quaterniond.mul_assoc, Quaterniond.transformVector_mul _ _ _ hc hb,
    Quaterniond.transformVector_add, Vector3.add_assoc]

theorem Rigid3d.mulPoint_mul_of_unit (sqrt : F → F) (hs : sqrt 1 = 1) (c b : Rigid3d F)
    (x : Vector3 F) (hc : c.rotation.squaredNorm = 1) (hb : b.rotation.squaredNorm = 1) :
    (Rigid3d.mul sqrt c b).mulPoint x = c.mulPoint (b.mulPoint x) := by
  rw [Rigid3d.mul_of_unit sqrt hs c b hc hb]
  simp only [Rigid3d.mulPoint, Quaterniond.transformVector_mul _ _ _ hc hb,
    Quaterniond.transformVector_add]
  ext <;> simp only [Vector3.add] <;> ring

theorem Rigid3d.Inverse_mulPoint_of_unit (t : Rigid3d F) (x : Vector3 F)
    (ht : t.rotation.squaredNorm = 1) : t.Inverse.mulPoint (t.mulPoint x) = x := by
  rw [Rigid3d.Inverse_of_unit t ht]
  simp only [Rigid3d.mulPoint, Quaterniond.transformVector_add,
    Quaterniond.transformVector_conjugate_cancel _ _ ht, Quaterniond.transformVector_neg]
  ext <;> simp [Vector3.add, Vector3.neg]

theorem Rigid3d.mulPoint_Inverse_of_unit (t : Rigid3d F) (x : Vector3 F)
    (ht : t.rotation.squaredNorm = 1) : t.mulPoint (t.Inverse.mulPoint x) = x := by
  rw [Rigid3d.Inverse_of_unit t ht]
  simp only [Rigid3d.mulPoint, Quaterniond.transformVector_add,
    Quaterniond.transformVector_cancel_conjugate _ _ ht, Quaterniond.transformVector_neg]
  ext <;> simp [Vector3.add, Vector3.neg]

theorem testCamFromWorlds_unit (qx tx : ℝ) (i : Fin 3) :
    (testCamFromWorlds Real.sqrt qx tx i).rotation.squaredNorm = 1 := by
  fin_cases i <;>
  · apply Quaterniond.squaredNorm_normalized_real
    simp only [Quaterniond.squaredNorm]
    nlinarith [mul_self_nonneg qx, mul_self_nonneg (qx + 5 / 100), mul_self_nonneg (qx + 1 / 10)]

theorem Rigid3d.CreatedFromUnit.squaredNorm_eq_one (T : Rigid3d ℝ)
    (h : Rigid3d.CreatedFromUnit Real.sqrt T) : T.rotation.squaredNorm = 1 := by
  induction h with
  | default => simp [Rigid3d.default, Quaterniond.Identity, Quaterniond.squaredNorm]
  | ctor rotation translation hr => exact (Quaterniond.norm_eq_one_iff _).mp hr
  | Inverse t _ ih => exact Rigid3d.squaredNorm_Inverse_of_unit t ih
  | mul c b _ _ ihc ihb => exact Rigid3d.squaredNorm_mul_of_unit Real.sqrt Real.sqrt_one c b ihc ihb

theorem Rigid3d.Matrix_mulVec_homogeneous (t : Rigid3d F) (x : Vector3 F) :
    t.Matrix.mulVec x.homogeneous = t.mulPoint x := by
  ext <;> simp only [Rigid3d.Matrix, Matrix3x4.mulVec, Vector3.homogeneous, Rigid3d.mulPoint,
    Quaterniond.transformVector, Quaterniond.vec, Vector3.cross, Vector3.add, Vector3.scale,
    Quaterniond.toRotationMatrix] <;> ring

theorem Quaterniond.toRotationMatrix_orthogonal (q : Quaterniond F) (h : q.squaredNorm = 1) :
    q.toRotationMatrix.mul q.toRotationMatrix.transpose = Matrix3.Identity := by
  obtain ⟨w, x, y, z⟩ := q
  simp only [Quaterniond.squaredNorm] at h
  simp only [Quaterniond.toRotationMatrix, Matrix3.mul, Matrix3.transpose, Matrix3.Identity,
    Matrix3.mk.injEq]
  refine ⟨?_, ?_, ?_, ?_, ?_, ?_, ?_, ?_, ?_⟩
  · linear_combination (4 * (y * y + z * z)) * h
  · linear_combination (-4 * (x * y)) * h
  · linear_combination (-4 * (x * z)) * h
  · linear_combination (-4 * (x * y)) * h
  · linear_combination (4 * (x * x + z * z)) * h
  · linear_combination (-4 * (y * z)) * h
  · linear_combination (-4 * (x * z)) * h
  · linear_combination (-4 * (y * z)) * h
  · linear_combination (4 * (x * x + y * y)) * h

theorem Quaterniond.toRotationMatrix_determinant (q : Quaterniond F) (h : q.squaredNorm = 1) :
    q.toRotationMatrix.determinant = 1 := by
  obtain ⟨w, x, y, z⟩ := q
  simp only [Quaterniond.squaredNorm] at h
  simp only [Quaterniond.toRotationMatrix, Matrix3.determinant]
  linear_combination (4 * (x * x + y * y + z * z)) * h

theorem Quaterniond.normalized_eq_scale (sqrt : F → F) (q : Quaterniond F) :
    q.normalized sqrt = Quaterniond.scale (1 / q.norm sqrt) q := by
  by_cases h : 0 < q.squaredNorm
  · simp only [Quaterniond.normalized, h, if_true, Quaterniond.scale, Quaterniond.norm]
    ext <;> simp only [] <;> ring
  · have h0 : q.squaredNorm = 0 := le_antisymm (not_lt.mp h) (Quaterniond.squaredNorm_nonneg q)
    have hq := Quaterniond.eq_zero_of_squaredNorm q h0
    simp only [Quaterniond.normalized, gt_iff_lt, h, if_false]
    rw [hq]
    simp [Quaterniond.scale]

theorem Quaterniond.squaredNorm_pos_of_ne_zero (q : Quaterniond F) (h : q ≠ ⟨0, 0, 0, 0⟩) :
    0 < q.squaredNorm := by
  rcases lt_or_eq_of_le (Quaterniond.squaredNorm_nonneg q) with h1 | h1
  · exact h1
  · exact absurd (Quaterniond.eq_zero_of_squaredNorm q h1.symm) h

theorem Rigid3d.composeSpec_eq_some (sqrt : F → F) (c b : Rigid3d F)
    (h : 0 < (c.rotation.mul b.rotation).norm sqrt) :
    Rigid3d.composeSpec sqrt c b = some (Rigid3d.mul sqrt c b) := by
  simp only [Rigid3d.composeSpec, h, if_true, Rigid3d.mul, Quaterniond.normalized_eq_scale,
    Quaterniond.transformVector_eq_mulVec]

theorem Rigid3d.composeSpec_eq_none (sqrt : F → F) (c b : Rigid3d F)
    (h : ¬ 0 < (c.rotation.mul b.rotation).norm sqrt) :
    Rigid3d.composeSpec sqrt c b = none := by
  simp only [Rigid3d.composeSpec, h, if_false]

theorem Quaterniond.norm_pos_of_ne_zero (q : Quaterniond ℝ) (h : q ≠ ⟨0, 0, 0, 0⟩) :
    0 < q.norm Real.sqrt :=
  Real.sqrt_pos.mpr (Quaterniond.squaredNorm_pos_of_ne_zero q h)

theorem ransac.Sample_insufficient {M : Type} (num : ransac.Numerics M) (k n seed : Nat)
    (h : n < k) : ransac.Sample num k n seed = none := by
  simp [ransac.Sample, h]

theorem ransac.Loop_insufficient {P M : Type} (est : ransac.Estimator P M)
    (opts : ransac.RANSACOptions) (num : ransac.Numerics M) (data : List P)
    (h : data.length < est.MinimalSampleSize) (fuel : Nat) (s : ransac.State M) :
    ransac.Loop est opts num data fuel s = s := by
  cases fuel with
  | zero => rfl
  | succ n =>
    unfold ransac.Loop
    rw [ransac.Sample_insufficient num _ _ _ h]
    split <;> rfl

/-- The invariant of the engine's state: the recorded inlier mask and support of the
best model are those of its residuals on the full correspondence set. -/
theorem ransac.Score_invariant {P M : Type} (est : ransac.Estimator P M)
    (opts : ransac.RANSACOptions) (num : ransac.Numerics M) (data : List P)
    (s : ransac.State M) (c : M)
    (hs : ∀ b, s.best = some b →
      b.inlier_mask = ransac.inlierMask opts (est.Residuals data b.model)) :
    ∀ b, (ransac.Score est opts num data s c).best = some b →
      b.inlier_mask = ransac.inlierMask opts (est.Residuals data b.model) := by
  intro b hb
  unfold ransac.Score at hb
  simp only [] at hb
  split at hb
  · simp only [Option.some.injEq] at hb
    rw [← hb]
  · exact hs b hb

theorem ransac.foldl_invariant {M : Type} (Q : ransac.State M → Prop)
    (f : ransac.State M → M → ransac.State M) (hf : ∀ s c, Q s → Q (f s c))
    (cs : List M) (s : ransac.State M) (hs : Q s) : Q (cs.foldl f s) := by
  induction cs generalizing s with
  | nil => exact hs
  | cons c cs ih => exact ih (f s c) (hf s c hs)

theorem ransac.LocalOptimization_invariant {P M : Type} (est : ransac.Estimator P M)
    (opts : ransac.RANSACOptions) (num : ransac.Numerics M) (data : List P)
    (n : Nat) (s : ransac.State M)
    (hs : ∀ b, s.best = some b →
      b.inlier_mask = ransac.inlierMask opts (est.Residuals data b.model)) :
    ∀ b, (ransac.LocalOptimization est opts num data n s).best = some b →
      b.inlier_mask = ransac.inlierMask opts (est.Residuals data b.model) := by
  induction n generalizing s with
  | zero => exact hs
  | succ n ih =>
    unfold ransac.LocalOptimization
    split
    · exact hs
    · rename_i b0 hb0
      have h2 := ransac.foldl_invariant
        (fun st : ransac.State M => ∀ b, st.best = some b →
          b.inlier_mask = ransac.inlierMask opts (est.Residuals data b.model))
        (ransac.Score est opts num data)
        (fun st c hst => ransac.Score_invariant est opts num data st c hst)
        (est.Estimate (ransac.select data b0.inlier_mask))
        { s with generated := s.generated ++ est.Estimate (ransac.select data b0.inlier_mask) }
        hs
      simp only []
      split
      · exact h2
      · split
        · exact ih _ h2
        · exact h2

theorem ransac.ScoreCandidate_invariant {P M : Type} (est : ransac.Estimator P M)
    (opts : ransac.RANSACOptions) (num : ransac.Numerics M) (data : List P)
    (s : ransac.State M) (c : M)
    (hs : ∀ b, s.best = some b →
      b.inlier_mask = ransac.inlierMask opts (est.Residuals data b.model)) :
    ∀ b, (ransac.ScoreCandidate est opts num data s c).best = some b →
      b.inlier_mask = ransac.inlierMask opts (est.Residuals data b.model) := by
  unfold ransac.ScoreCandidate
  simp only []
  split
  · exact ransac.LocalOptimization_invariant est opts num data _ _
      (ransac.Score_invariant est opts num data s c hs)
  · exact ransac.Score_invariant est opts num data s c hs

theorem ransac.Loop_invariant {P M : Type} (est : ransac.Estimator P M)
    (opts : ransac.RANSACOptions) (num : ransac.Numerics M) (data : List P)
    (n : Nat) (s : ransac.State M)
    (hs : ∀ b, s.best = some b →
      b.inlier_mask = ransac.inlierMask opts (est.Residuals data b.model)) :
    ∀ b, (ransac.Loop est opts num data n s).best = some b →
      b.inlier_mask = ransac.inlierMask opts (est.Residuals data b.model) := by
  induction n generalizing s with
  | zero => exact hs
  | succ n ih =>
    unfold ransac.Loop
    split
    · split
      · exact hs
      · apply ih
        exact ransac.foldl_invariant
          (fun st : ransac.State M => ∀ b, st.best = some b →
            b.inlier_mask = ransac.inlierMask opts (est.Residuals data b.model))
          (ransac.ScoreCandidate est opts num data)
          (fun st c hst => ransac.ScoreCandidate_invariant est opts num data st c hst)
          _ _ hs
    · exact hs

/-- On the engine modelled from the specification: in the report of a successful
estimation, every correspondence flagged as inlier has a finite residual under the
returned model that is at most `max_error`. -/
theorem ransac.Estimate_inlier_residual_bound {P M : Type} (est : ransac.Estimator P M)
    (opts : ransac.RANSACOptions) (num : ransac.Numerics M) (data : List P)
    (hsucc : (ransac.Estimate est opts num data).success = true) (i : Nat)
    (hi : (ransac.Estimate est opts num data).inlier_mask[i]? = some true) :
    ∃ e : ℚ, (est.Residuals data (ransac.Estimate est opts num data).model)[i]? = some (some e)
      ∧ e ≤ opts.max_error := by
  have hinv := ransac.Loop_invariant est opts num data opts.max_num_trials
    (ransac.Init est opts num) (by intro b hb; simp [ransac.Init] at hb)
  have hrep : ransac.Estimate est opts num data
      = ransac.Terminate opts num data (ransac.Run est opts num data) := rfl
  rw [hrep] at hsucc hi ⊢
  cases hb : (ransac.Run est opts num data).best with
  | none => simp [ransac.Terminate, hb] at hsucc
  | some b =>
    by_cases hratio : opts.min_inlier_ratio * (data.length : ℚ) ≤ (b.support : ℚ)
    · have hmask := hinv b hb
      simp only [ransac.Terminate, hb, hratio, if_true] at hi ⊢
      rw [hmask, ransac.inlierMask, List.getElem?_map] at hi
      cases hr : (est.Residuals data b.model)[i]? with
      | none => rw [hr] at hi; simp at hi
      | some r =>
        rw [hr] at hi
        cases r with
        | none => simp at hi
        | some e =>
          refine ⟨e, rfl, ?_⟩
          simpa using hi
    · simp [ransac.Terminate, hb, hratio] at hsucc

theorem Quaterniond.squaredNorm_Identity :
    (Quaterniond.Identity : Quaterniond F).squaredNorm = 1 := by
  simp [Quaterniond.Identity, Quaterniond.squaredNorm]

theorem Quaterniond.conjugate_conjugate (q : Quaterniond F) : q.conjugate.conjugate = q := by
  ext <;> simp [Quaterniond.conjugate]

theorem Quaterniond.conjugate_mul_rev (a b : Quaterniond F) :
    (a.mul b).conjugate = b.conjugate.mul a.conjugate := by
  ext <;> simp only [Quaterniond.mul, Quaterniond.conjugate] <;> ring

theorem Quaterniond.Identity_mul (q : Quaterniond F) : Quaterniond.Identity.mul q = q := by
  ext <;> simp [Quaterniond.Identity, Quaterniond.mul]

theorem Quaterniond.mul_Identity (q : Quaterniond F) : q.mul Quaterniond.Identity = q := by
  ext <;> simp [Quaterniond.Identity, Quaterniond.mul]

theorem Quaterniond.transformVector_zero (q : Quaterniond F) :
    q.transformVector ⟨0, 0, 0⟩ = ⟨0, 0, 0⟩ := by
  ext <;> simp [Quaterniond.transformVector, Quaterniond.vec, Vector3.cross, Vector3.add,
    Vector3.scale]

theorem Quaterniond.transformVector_sub (q : Quaterniond F) (u v : Vector3 F) :
    (q.transformVector u).sub (q.transformVector v) = q.transformVector (u.sub v) := by
  ext <;> simp only [Quaterniond.transformVector, Quaterniond.vec, Vector3.cross, Vector3.add,
    Vector3.scale, Vector3.sub] <;> ring

theorem Quaterniond.squaredNorm_transformVector (q : Quaterniond F) (v : Vector3 F)
    (h : q.squaredNorm = 1) : (q.transformVector v).squaredNorm = v.squaredNorm := by
  obtain ⟨w, x, y, z⟩ := q
  obtain ⟨vx, vy, vz⟩ := v
  simp only [Quaterniond.squaredNorm] at h
  simp only [Quaterniond.transformVector, Quaterniond.vec, Vector3.cross, Vector3.add,
    Vector3.scale, Vector3.squaredNorm]
  linear_combination
    (4 * ((y * vz - z * vy) * (y * vz - z * vy) + (z * vx - x * vz) * (z * vx - x * vz)
      + (x * vy - y * vx) * (x * vy - y * vx))) * h

theorem Rigid3d.mulPoint_sub (t : Rigid3d F) (x y : Vector3 F) :
    (t.mulPoint x).sub (t.mulPoint y) = t.rotation.transformVector (x.sub y) := by
  rw [← Quaterniond.transformVector_sub]
  ext <;> simp [Rigid3d.mulPoint, Vector3.add, Vector3.sub]

theorem Rigid3d.default_mulPoint (x : Vector3 F) : (Rigid3d.default : Rigid3d F).mulPoint x = x := by
  show ((⟨1, 0, 0, 0⟩ : Quaterniond F).transformVector x).add ⟨0, 0, 0⟩ = x
  rw [Quaterniond.transformVector_Identity, Vector3.add_zero]

theorem Rigid3d.default_Inverse : (Rigid3d.default : Rigid3d F).Inverse = Rigid3d.default := by
  rw [Rigid3d.Inverse_of_unit _ Quaterniond.squaredNorm_Identity]
  ext <;> simp [Rigid3d.default, Quaterniond.Identity, Quaterniond.conjugate, Vector3.Zero,
    Vector3.neg, Quaterniond.transformVector, Quaterniond.vec, Vector3.cross, Vector3.add,
    Vector3.scale]

theorem Rigid3d.default_mul_of_unit (sqrt : F → F) (hs : sqrt 1 = 1) (t : Rigid3d F)
    (ht : t.rotation.squaredNorm = 1) : Rigid3d.mul sqrt Rigid3d.default t = t := by
  rw [Rigid3d.mul_of_unit sqrt hs _ t Quaterniond.squaredNorm_Identity ht]
  show (⟨Quaterniond.Identity.mul t.rotation,
    (⟨0, 0, 0⟩ : Vector3 F).add ((⟨1, 0, 0, 0⟩ : Quaterniond F).transformVector t.translation)⟩ :
      Rigid3d F) = t
  rw [Quaterniond.Identity_mul, Quaterniond.transformVector_Identity]
  ext <;> simp [Vector3.add]

theorem Rigid3d.mul_default_of_unit (sqrt : F → F) (hs : sqrt 1 = 1) (t : Rigid3d F)
    (ht : t.rotation.squaredNorm = 1) : Rigid3d.mul sqrt t Rigid3d.default = t := by
  rw [Rigid3d.mul_of_unit sqrt hs t _ ht Quaterniond.squaredNorm_Identity]
  show (⟨t.rotation.mul Quaterniond.Identity,
    t.translation.add (t.rotation.transformVector ⟨0, 0, 0⟩)⟩ : Rigid3d F) = t
  rw [Quaterniond.mul_Identity, Quaterniond.transformVector_zero, Vector3.add_zero]

theorem Rigid3d.Inverse_Inverse_of_unit (t : Rigid3d F) (ht : t.rotation.squaredNorm = 1) :
    t.Inverse.Inverse = t := by
  rw [Rigid3d.Inverse_of_unit _ (Rigid3d.squaredNorm_Inverse_of_unit t ht),
    Rigid3d.Inverse_of_unit t ht]
  simp only [Quaterniond.conjugate_conjugate, Quaterniond.transformVector_neg,
    Quaterniond.transformVector_cancel_conjugate _ _ ht]
  ext <;> simp [Vector3.neg]

theorem Rigid3d.Inverse_mul_of_unit (sqrt : F → F) (hs : sqrt 1 = 1) (a b : Rigid3d F)
    (ha : a.rotation.squaredNorm = 1) (hb : b.rotation.squaredNorm = 1) :
    (Rigid3d.mul sqrt a b).Inverse = Rigid3d.mul sqrt b.Inverse a.Inverse := by
  have hab := Rigid3d.squaredNorm_mul_of_unit sqrt hs a b ha hb
  have hca : a.rotation.conjugate.squaredNorm = 1 :=
    (Quaterniond.squaredNorm_conjugate _).trans ha
  have hcb : b.rotation.conjugate.squaredNorm = 1 :=
    (Quaterniond.squaredNorm_conjugate _).trans hb
  rw [Rigid3d.Inverse_of_unit _ hab,
    Rigid3d.mul_of_unit sqrt hs _ _ (Rigid3d.squaredNorm_Inverse_of_unit b hb)
      (Rigid3d.squaredNorm_Inverse_of_unit a ha),
    Rigid3d.mul_of_unit sqrt hs a b ha hb, Rigid3d.Inverse_of_unit a ha,
    Rigid3d.Inverse_of_unit b hb]
  simp only [Quaterniond.conjugate_mul_rev, Quaterniond.transformVector_mul _ _ _ hcb hca,
    Quaterniond.transformVector_neg, Quaterniond.transformVector_add,
    Quaterniond.transformVector_conjugate_cancel _ _ ha]
  ext <;> simp [Vector3.add, Vector3.neg]

theorem Quaterniond.squaredNorm_mul_pos (a b : Quaterniond F) (ha : a ≠ ⟨0, 0, 0, 0⟩)
    (hb : b ≠ ⟨0, 0, 0, 0⟩) : 0 < (a.mul b).squaredNorm := by
  rw [Quaterniond.squaredNorm_mul]
  exact mul_pos (Quaterniond.squaredNorm_pos_of_ne_zero a ha)
    (Quaterniond.squaredNorm_pos_of_ne_zero b hb)

theorem Rigid3d.mul_eq_mulWithoutNormalized (sqrt : F → F) (hs : sqrt 1 = 1) (c b : Rigid3d F)
    (hc : c.rotation.squaredNorm = 1) (hb : b.rotation.squaredNorm = 1) :
    Rigid3d.mul sqrt c b = Rigid3d.mulWithoutNormalized c b := by
  rw [Rigid3d.mul_of_unit sqrt hs c b hc hb]
  rfl

/-! ### The auxiliary functions of the binary64 arithmetic -/

theorem F64.bitLengthAux_spec (fuel n : Nat) (h : n ≤ fuel) :
    n < 2 ^ F64.bitLengthAux fuel n ∧ (n ≠ 0 → 2 ^ F64.bitLengthAux fuel n ≤ 2 * n) := by
  induction fuel generalizing n with
  | zero =>
    have h0 : n = 0 := by omega
    subst h0
    simp [F64.bitLengthAux]
  | succ f ih =>
    by_cases hn : n = 0
    · subst hn
      simp [F64.bitLengthAux]
    · have h2 : n / 2 ≤ f := by omega
      obtain ⟨h3, h4⟩ := ih (n / 2) h2
      simp only [F64.bitLengthAux, hn, if_false, pow_succ]
      refine ⟨by omega, fun _ => ?_⟩
      by_cases hh : n / 2 = 0
      · have hb : F64.bitLengthAux f (n / 2) = 0 := by
          rw [hh]
          cases f <;> simp [F64.bitLengthAux]
        rw [hb]
        omega
      · have := h4 hh
        omega

/-- The function `bitLength` gives the number of binary digits:
`2^(bitLength n - 1) ≤ n < 2^(bitLength n)` for `n ≠ 0`. -/
theorem F64.bitLength_spec (n : Nat) :
    n < 2 ^ F64.bitLength n ∧ (n ≠ 0 → 2 ^ F64.bitLength n ≤ 2 * n) :=
  F64.bitLengthAux_spec n n (le_refl n)

theorem F64.isqrtAux_spec (n k r : Nat) (h1 : r * r ≤ n) (h2 : n < (r + 2 ^ k) * (r + 2 ^ k)) :
    F64.isqrtAux n k r * F64.isqrtAux n k r ≤ n ∧
    n < (F64.isqrtAux n k r + 1) * (F64.isqrtAux n k r + 1) := by
  induction k generalizing r with
  | zero => simpa [F64.isqrtAux] using And.intro h1 h2
  | succ k ih =>
    simp only [F64.isqrtAux]
    split
    · rename_i hle
      apply ih _ hle
      have he : r + 2 ^ k + 2 ^ k = r + 2 ^ (k + 1) := by rw [pow_succ]; ring
      rw [he]
      exact h2
    · rename_i hle
      exact ih _ h1 (not_le.mp hle)

/-- The function `isqrt` is the integer square root. -/
theorem F64.isqrt_spec (n : Nat) :
    F64.isqrt n * F64.isqrt n ≤ n ∧ n < (F64.isqrt n + 1) * (F64.isqrt n + 1) := by
  apply F64.isqrtAux_spec
  · simp
  · have h := (F64.bitLength_spec n).1
    have h1 : 1 ≤ 2 ^ F64.bitLength n := Nat.one_le_two_pow
    calc n < 2 ^ F64.bitLength n := h
      _ = 2 ^ F64.bitLength n * 1 := (Nat.mul_one _).symm
      _ ≤ 2 ^ F64.bitLength n * 2 ^ F64.bitLength n := Nat.mul_le_mul_left _ h1
      _ = (0 + 2 ^ F64.bitLength n) * (0 + 2 ^ F64.bitLength n) := by simp

/-- The function `roundShift n s` gives an integer nearest to `n / 2^s`: the distance
is at most one half; at distance exactly one half the result is even. -/
theorem F64.roundShift_spec (n s : Nat) :
    2 * n ≤ 2 * (F64.roundShift n s * 2 ^ s) + 2 ^ s ∧
    2 * (F64.roundShift n s * 2 ^ s) ≤ 2 * n + 2 ^ s ∧
    (2 * (n % 2 ^ s) = 2 ^ s → F64.roundShift n s % 2 = 0) := by
  have hdiv : 2 ^ s * (n / 2 ^ s) + n % 2 ^ s = n := Nat.div_add_mod n (2 ^ s)
  have hmod : n % 2 ^ s < 2 ^ s := Nat.mod_lt _ (Nat.two_pow_pos s)
  have hq : n / 2 ^ s * 2 ^ s = 2 ^ s * (n / 2 ^ s) := Nat.mul_comm _ _
  have hq1 : (n / 2 ^ s + 1) * 2 ^ s = 2 ^ s * (n / 2 ^ s) + 2 ^ s := by ring
  unfold F64.roundShift
  simp only []
  split
  · rename_i hc
    rw [hq1]
    refine ⟨by omega, by omega, fun ht => ?_⟩
    rcases hc with hc | hc
    · omega
    · omega
  · rename_i hc
    rw [hq]
    have hc1 : ¬ 2 ^ s < 2 * (n % 2 ^ s) := fun h => hc (Or.inl h)
    refine ⟨by omega, by omega, fun ht => ?_⟩
    have hodd : ¬ (n / 2 ^ s % 2 = 1) := fun h => hc (Or.inr ⟨ht, h⟩)
    omega

/-! ### Checks of the binary64 arithmetic on known values -/

set_option maxRecDepth 100000

/-- In binary64, `2^53 + 1` is not representable and rounds to `2^53` (tie to even),
while `2^53 + 3` rounds to `2^53 + 4`. -/
theorem F64.add_rounds_to_even :
    (9007199254740992 : F64) = F64.finite 1 53 ∧
    (9007199254740992 : F64) + 1 = F64.finite 1 53 ∧
    (9007199254740992 : F64) + 3 = F64.finite 2251799813685249 2 := by
  decide

/-- In binary64, `0.1 + 0.2` is `0.30000000000000004` (`0x1.3333333333334p-2`), not the
double nearest to `0.3` (`0x1.3333333333333p-2`). -/
theorem F64.one_tenth_plus_two_tenths :
    (1 : F64) / 10 + 2 / 10 = F64.finite 1351079888211149 (-52) ∧
    (3 : F64) / 10 = F64.finite 5404319552844595 (-54) := by
  decide

/-- In binary64, `sqrt(2)` is `0x1.6a09e667f3bcdp+0` and `1 / sqrt(2)` is
`0x1.6a09e667f3bccp-1`. -/
theorem F64.sqrt_two :
    F64.sqrt 2 = F64.finite 6369051672525773 (-52) ∧
    1 / F64.sqrt 2 = F64.finite 1592262918131443 (-51) := by
  decide

/-- In binary64, `2^-600 * 2^-600` underflows to zero and `2^600 * 2^600` overflows to
infinity. -/
theorem F64.mul_underflow_overflow :
    F64.finite 1 (-600) * F64.finite 1 (-600) = 0 ∧
    F64.finite 1 600 * F64.finite 1 600 = F64.inf false := by
  decide

end lemmas

/-! ## The claims -/

section claims

set_option maxRecDepth 100000

/-- C1 (identity composition). For every `Rigid3d` T over the reals whose rotation
has norm 1, `T * T.Inverse()` has rotation (1,0,0,0) and translation (0,0,0); and for
all loop values `qx`, `tx` of the test, the rig-local transform of the reference
camera, `testCamFromWorlds[kRefTform] * testCamFromWorlds[kRefTform].Inverse()`, is
the default-constructed (identity) transform. -/
theorem C1_identity_composition (T : Rigid3d ℝ) (hT : T.rotation.norm Real.sqrt = 1)
    (qx tx : ℝ) :
    (Rigid3d.mul Real.sqrt T T.Inverse).rotation = ⟨1, 0, 0, 0⟩ ∧
    (Rigid3d.mul Real.sqrt T T.Inverse).translation = ⟨0, 0, 0⟩ ∧
    iFromRef Real.sqrt qx tx kRefTform = Rigid3d.default := by
  have h := Rigid3d.mul_Inverse_of_unit Real.sqrt Real.sqrt_one T
    ((Quaterniond.norm_eq_one_iff _).mp hT)
  refine ⟨by rw [h], by rw [h], ?_⟩
  exact Rigid3d.mul_Inverse_of_unit Real.sqrt Real.sqrt_one _
    (testCamFromWorlds_unit qx tx kRefTform)

/-- Witness of C1 at the rotation (3/5, 4/5, 0, 0), translation (1, 2, 3), and the
test's first loop values qx = 0, tx = 0. -/
theorem C1_identity_composition_witness :
    (Rigid3d.mk (Quaterniond.mk (3 / 5) (4 / 5) 0 0) (Vector3.mk 1 2 3) :
        Rigid3d ℝ).rotation.norm Real.sqrt = 1 ∧
    (Rigid3d.mul Real.sqrt (Rigid3d.mk (Quaterniond.mk (3 / 5) (4 / 5) 0 0) (Vector3.mk 1 2 3))
        (Rigid3d.mk (Quaterniond.mk (3 / 5) (4 / 5) 0 0) (Vector3.mk 1 2 3)).Inverse).rotation
      = ⟨1, 0, 0, 0⟩ ∧
    (Rigid3d.mul Real.sqrt (Rigid3d.mk (Quaterniond.mk (3 / 5) (4 / 5) 0 0) (Vector3.mk 1 2 3))
        (Rigid3d.mk (Quaterniond.mk (3 / 5) (4 / 5) 0 0) (Vector3.mk 1 2 3)).Inverse).translation
      = ⟨0, 0, 0⟩ ∧
    iFromRef Real.sqrt (0 : ℝ) 0 kRefTform = Rigid3d.default :=
  have h : (Rigid3d.mk (Quaterniond.mk (3 / 5) (4 / 5) 0 0) (Vector3.mk 1 2 3) :
      Rigid3d ℝ).rotation.norm Real.sqrt = 1 :=
    (Quaterniond.norm_eq_one_iff _).mpr (by norm_num [Quaterniond.squaredNorm])
  ⟨h, C1_identity_composition _ h 0 0⟩

/-- C2 (associativity). For all `Rigid3d` A, B, C over the reals whose rotations
have norm 1, `(C * B) * A = C * (B * A)`: equal rotation and equal translation. -/
theorem C2_associativity (A B C : Rigid3d ℝ) (hA : A.rotation.norm Real.sqrt = 1)
    (hB : B.rotation.norm Real.sqrt = 1) (hC : C.rotation.norm Real.sqrt = 1) :
    Rigid3d.mul Real.sqrt (Rigid3d.mul Real.sqrt C B) A
      = Rigid3d.mul Real.sqrt C (Rigid3d.mul Real.sqrt B A) :=
  Rigid3d.mul_assoc_of_unit Real.sqrt Real.sqrt_one A B C
    ((Quaterniond.norm_eq_one_iff _).mp hA) ((Quaterniond.norm_eq_one_iff _).mp hB)
    ((Quaterniond.norm_eq_one_iff _).mp hC)

/-- Witness of C2 at three rotations about different axes. -/
theorem C2_associativity_witness :
    (Rigid3d.mk (Quaterniond.mk (3 / 5) (4 / 5) 0 0) (Vector3.mk 1 2 3) :
        Rigid3d ℝ).rotation.norm Real.sqrt = 1 ∧
    (Rigid3d.mk (Quaterniond.mk (5 / 13) 0 (12 / 13) 0) (Vector3.mk 0 1 0) :
        Rigid3d ℝ).rotation.norm Real.sqrt = 1 ∧
    (Rigid3d.mk (Quaterniond.mk (4 / 5) 0 0 (3 / 5)) (Vector3.mk 2 0 1) :
        Rigid3d ℝ).rotation.norm Real.sqrt = 1 ∧
    Rigid3d.mul Real.sqrt
        (Rigid3d.mul Real.sqrt
          (Rigid3d.mk (Quaterniond.mk (4 / 5) 0 0 (3 / 5)) (Vector3.mk 2 0 1))
          (Rigid3d.mk (Quaterniond.mk (5 / 13) 0 (12 / 13) 0) (Vector3.mk 0 1 0)))
        (Rigid3d.mk (Quaterniond.mk (3 / 5) (4 / 5) 0 0) (Vector3.mk 1 2 3))
      = Rigid3d.mul Real.sqrt
        (Rigid3d.mk (Quaterniond.mk (4 / 5) 0 0 (3 / 5)) (Vector3.mk 2 0 1))
        (Rigid3d.mul Real.sqrt
          (Rigid3d.mk (Quaterniond.mk (5 / 13) 0 (12 / 13) 0) (Vector3.mk 0 1 0))
          (Rigid3d.mk (Quaterniond.mk (3 / 5) (4 / 5) 0 0) (Vector3.mk 1 2 3))) :=
  have hA : (Rigid3d.mk (Quaterniond.mk (3 / 5) (4 / 5) 0 0) (Vector3.mk 1 2 3) :
      Rigid3d ℝ).rotation.norm Real.sqrt = 1 :=
    (Quaterniond.norm_eq_one_iff _).mpr (by norm_num [Quaterniond.squaredNorm])
  have hB : (Rigid3d.mk (Quaterniond.mk (5 / 13) 0 (12 / 13) 0) (Vector3.mk 0 1 0) :
      Rigid3d ℝ).rotation.norm Real.sqrt = 1 :=
    (Quaterniond.norm_eq_one_iff _).mpr (by norm_num [Quaterniond.squaredNorm])
  have hC : (Rigid3d.mk (Quaterniond.mk (4 / 5) 0 0 (3 / 5)) (Vector3.mk 2 0 1) :
      Rigid3d ℝ).rotation.norm Real.sqrt = 1 :=
    (Quaterniond.norm_eq_one_iff _).mpr (by norm_num [Quaterniond.squaredNorm])
  ⟨hA, hB, hC, C2_associativity _ _ _ hA hB hC⟩

/-- C3, as amended (composition is function composition on points, in exact real
arithmetic). For all `Rigid3d` cFromB,
bFromA over the reals with rotations of norm 1 and every 3-vector x,
`(cFromB * bFromA) * x = cFromB * (bFromA * x)`. -/
theorem C3_compose_apply (cFromB bFromA : Rigid3d ℝ) (x : Vector3 ℝ)
    (hc : cFromB.rotation.norm Real.sqrt = 1) (hb : bFromA.rotation.norm Real.sqrt = 1) :
    (Rigid3d.mul Real.sqrt cFromB bFromA).mulPoint x = cFromB.mulPoint (bFromA.mulPoint x) :=
  Rigid3d.mulPoint_mul_of_unit Real.sqrt Real.sqrt_one cFromB bFromA x
    ((Quaterniond.norm_eq_one_iff _).mp hc) ((Quaterniond.norm_eq_one_iff _).mp hb)

/-- Witness of C3 at two rotations about different axes and the point (1, -2, 5). -/
theorem C3_compose_apply_witness :
    (Rigid3d.mk (Quaterniond.mk (4 / 5) 0 0 (3 / 5)) (Vector3.mk 2 0 1) :
        Rigid3d ℝ).rotation.norm Real.sqrt = 1 ∧
    (Rigid3d.mk (Quaterniond.mk (5 / 13) 0 (12 / 13) 0) (Vector3.mk 0 1 0) :
        Rigid3d ℝ).rotation.norm Real.sqrt = 1 ∧
    (Rigid3d.mul Real.sqrt
        (Rigid3d.mk (Quaterniond.mk (4 / 5) 0 0 (3 / 5)) (Vector3.mk 2 0 1))
        (Rigid3d.mk (Quaterniond.mk (5 / 13) 0 (12 / 13) 0) (Vector3.mk 0 1 0))).mulPoint
        (Vector3.mk 1 (-2) 5)
      = (Rigid3d.mk (Quaterniond.mk (4 / 5) 0 0 (3 / 5)) (Vector3.mk 2 0 1)).mulPoint
        ((Rigid3d.mk (Quaterniond.mk (5 / 13) 0 (12 / 13) 0) (Vector3.mk 0 1 0)).mulPoint
          (Vector3.mk 1 (-2) 5)) :=
  have hC : (Rigid3d.mk (Quaterniond.mk (4 / 5) 0 0 (3 / 5)) (Vector3.mk 2 0 1) :
      Rigid3d ℝ).rotation.norm Real.sqrt = 1 :=
    (Quaterniond.norm_eq_one_iff _).mpr (by norm_num [Quaterniond.squaredNorm])
  have hB : (Rigid3d.mk (Quaterniond.mk (5 / 13) 0 (12 / 13) 0) (Vector3.mk 0 1 0) :
      Rigid3d ℝ).rotation.norm Real.sqrt = 1 :=
    (Quaterniond.norm_eq_one_iff _).mpr (by norm_num [Quaterniond.squaredNorm])
  ⟨hC, hB, C3_compose_apply _ _ _ hC hB⟩

/-- C4, as amended (the inverse undoes the mapping on points, in exact real
arithmetic). For every `Rigid3d` T over the
reals with rotation of norm 1 and every 3-vector x, `T.Inverse() * (T * x) = x` and
`T * (T.Inverse() * x) = x`. -/
theorem C4_inverse_undoes (T : Rigid3d ℝ) (x : Vector3 ℝ)
    (hT : T.rotation.norm Real.sqrt = 1) :
    T.Inverse.mulPoint (T.mulPoint x) = x ∧ T.mulPoint (T.Inverse.mulPoint x) = x :=
  ⟨Rigid3d.Inverse_mulPoint_of_unit T x ((Quaterniond.norm_eq_one_iff _).mp hT),
   Rigid3d.mulPoint_Inverse_of_unit T x ((Quaterniond.norm_eq_one_iff _).mp hT)⟩

/-- Witness of C4 at the rotation (3/5, 4/5, 0, 0), translation (1, 2, 3) and the
point (1, -2, 5). -/
theorem C4_inverse_undoes_witness :
    (Rigid3d.mk (Quaterniond.mk (3 / 5) (4 / 5) 0 0) (Vector3.mk 1 2 3) :
        Rigid3d ℝ).rotation.norm Real.sqrt = 1 ∧
    (Rigid3d.mk (Quaterniond.mk (3 / 5) (4 / 5) 0 0) (Vector3.mk 1 2 3) :
        Rigid3d ℝ).Inverse.mulPoint
        ((Rigid3d.mk (Quaterniond.mk (3 / 5) (4 / 5) 0 0) (Vector3.mk 1 2 3)).mulPoint
          (Vector3.mk 1 (-2) 5)) = Vector3.mk 1 (-2) 5 ∧
    (Rigid3d.mk (Quaterniond.mk (3 / 5) (4 / 5) 0 0) (Vector3.mk 1 2 3) : Rigid3d ℝ).mulPoint
        ((Rigid3d.mk (Quaterniond.mk (3 / 5) (4 / 5) 0 0) (Vector3.mk 1 2 3)).Inverse.mulPoint
          (Vector3.mk 1 (-2) 5)) = Vector3.mk 1 (-2) 5 :=
  have h : (Rigid3d.mk (Quaterniond.mk (3 / 5) (4 / 5) 0 0) (Vector3.mk 1 2 3) :
      Rigid3d ℝ).rotation.norm Real.sqrt = 1 :=
    (Quaterniond.norm_eq_one_iff _).mpr (by norm_num [Quaterniond.squaredNorm])
  ⟨h, C4_inverse_undoes _ _ h⟩

/-- Counterexample to C5 as stated: the two-argument constructor stores the
rotation it is given, so `Rigid3d(Quaterniond(2, 0, 0, 0), Vector3d(0, 0, 0))` is a
created value whose rotation has norm 2, not 1. -/
theorem C5_counterexample :
    Rigid3d.Created Real.sqrt (Rigid3d.mk (Quaterniond.mk (2 : ℝ) 0 0 0) (Vector3.mk 0 0 0)) ∧
    (Rigid3d.mk (Quaterniond.mk (2 : ℝ) 0 0 0) (Vector3.mk 0 0 0)).rotation.norm Real.sqrt = 2 ∧
    (Rigid3d.mk (Quaterniond.mk (2 : ℝ) 0 0 0) (Vector3.mk 0 0 0)).rotation.norm Real.sqrt ≠ 1 := by
  have h2 : (Rigid3d.mk (Quaterniond.mk (2 : ℝ) 0 0 0) (Vector3.mk 0 0 0)).rotation.norm
      Real.sqrt = 2 := by
    have h4 : (Quaterniond.mk (2 : ℝ) 0 0 0).squaredNorm = 2 ^ 2 := by
      norm_num [Quaterniond.squaredNorm]
    show Real.sqrt (Quaterniond.mk (2 : ℝ) 0 0 0).squaredNorm = 2
    rw [h4]
    exact Real.sqrt_sq (by norm_num)
  refine ⟨Rigid3d.Created.ctor _ _, h2, ?_⟩
  rw [h2]
  norm_num

/-- C5 (amended unit-norm invariant). Every `Rigid3d` value over the reals created
by default construction, by the two-argument constructor from a rotation of norm 1,
by `Inverse()` of such a value or by `operator*` of two such values has a rotation
quaternion of norm exactly 1. -/
theorem C5_unit_norm_invariant (T : Rigid3d ℝ) (h : Rigid3d.CreatedFromUnit Real.sqrt T) :
    T.rotation.norm Real.sqrt = 1 :=
  (Quaterniond.norm_eq_one_iff _).mpr (Rigid3d.CreatedFromUnit.squaredNorm_eq_one T h)

/-- Witness of C5 at `Rigid3d(q, t) * Rigid3d().Inverse()` with q = (3/5, 4/5, 0, 0)
and t = (1, 2, 3). -/
theorem C5_unit_norm_invariant_witness :
    (Rigid3d.mul Real.sqrt (Rigid3d.mk (Quaterniond.mk (3 / 5) (4 / 5) 0 0) (Vector3.mk 1 2 3))
      (Rigid3d.default : Rigid3d ℝ).Inverse).rotation.norm Real.sqrt = 1 :=
  C5_unit_norm_invariant _
    (Rigid3d.CreatedFromUnit.mul _ _
      (Rigid3d.CreatedFromUnit.ctor _ _
        ((Quaterniond.norm_eq_one_iff _).mpr (by norm_num [Quaterniond.squaredNorm])))
      (Rigid3d.CreatedFromUnit.Inverse _ Rigid3d.CreatedFromUnit.default))

/-- C6, as amended (Matrix() is the dense form of the same mapping, in exact real
arithmetic). For every `Rigid3d` T over
the reals with rotation of norm 1 and every 3-vector x: the fourth column of
`T.Matrix()` is `T.translation`; the left 3x3 block is `T.rotation.toRotationMatrix()`,
which is a rotation matrix (orthogonal, determinant 1); and the product
`T.Matrix() * (x, 1)` equals the point transform `T * x`, which equals
`rotation · x + translation` with the rotation acting as its matrix. -/
theorem C6_matrix_dense_form (T : Rigid3d ℝ) (x : Vector3 ℝ)
    (hT : T.rotation.norm Real.sqrt = 1) :
    T.Matrix.col3 = T.translation ∧
    T.Matrix.leftCols3 = T.rotation.toRotationMatrix ∧
    T.Matrix.leftCols3.mul T.Matrix.leftCols3.transpose = Matrix3.Identity ∧
    T.Matrix.leftCols3.determinant = 1 ∧
    T.Matrix.mulVec x.homogeneous = T.mulPoint x ∧
    T.mulPoint x = (T.rotation.toRotationMatrix.mulVec x).add T.translation := by
  have hq := (Quaterniond.norm_eq_one_iff _).mp hT
  have hb : T.Matrix.leftCols3 = T.rotation.toRotationMatrix := rfl
  refine ⟨rfl, hb, ?_, ?_, Rigid3d.Matrix_mulVec_homogeneous T x, ?_⟩
  · rw [hb]
    exact Quaterniond.toRotationMatrix_orthogonal _ hq
  · rw [hb]
    exact Quaterniond.toRotationMatrix_determinant _ hq
  · simp only [Rigid3d.mulPoint, Quaterniond.transformVector_eq_mulVec]

/-- Witness of C6 at the rotation (3/5, 4/5, 0, 0), translation (1, 2, 3) and the
point (1, -2, 5). -/
theorem C6_matrix_dense_form_witness :
    (Rigid3d.mk (Quaterniond.mk (3 / 5) (4 / 5) 0 0) (Vector3.mk 1 2 3) :
        Rigid3d ℝ).rotation.norm Real.sqrt = 1 ∧
    (Rigid3d.mk (Quaterniond.mk (3 / 5) (4 / 5) 0 0) (Vector3.mk 1 2 3) :
        Rigid3d ℝ).Matrix.mulVec (Vector3.mk 1 (-2) 5).homogeneous
      = (Rigid3d.mk (Quaterniond.mk (3 / 5) (4 / 5) 0 0) (Vector3.mk 1 2 3)).mulPoint
        (Vector3.mk 1 (-2) 5) :=
  have h : (Rigid3d.mk (Quaterniond.mk (3 / 5) (4 / 5) 0 0) (Vector3.mk 1 2 3) :
      Rigid3d ℝ).rotation.norm Real.sqrt = 1 :=
    (Quaterniond.norm_eq_one_iff _).mpr (by norm_num [Quaterniond.squaredNorm])
  ⟨h, (C6_matrix_dense_form _ (Vector3.mk 1 (-2) 5) h).2.2.2.2.1⟩

/-- Counterexample to C7 as stated. In exact real arithmetic, for
`cFromB = Rigid3d(Quaterniond(0, 0, 0, 0), (1, 2, 3))` and `bFromA = Rigid3d()` the
quaternion product is zero, `normalized()` returns it unchanged, and the rotation of
`cFromB * bFromA` is the zero quaternion, of norm 0: it is not of unit length, and the
wording of the specification gives no result there. On the code in `double`, for
`cFromB = Rigid3d()` and `bFromA = Rigid3d(Quaterniond(1, 0, 1, 0), 0)` the rotation
of `cFromB * bFromA` is `(a, 0, a, 0)` with `a = 0x1.6a09e667f3bccp-1`, of norm
`1 - 2^-53`. -/
theorem C7_counterexample :
    (Rigid3d.mul Real.sqrt (Rigid3d.mk (Quaterniond.mk 0 0 0 0) (Vector3.mk 1 2 3))
      (Rigid3d.default : Rigid3d ℝ)).rotation = ⟨0, 0, 0, 0⟩ ∧
    (Rigid3d.mul Real.sqrt (Rigid3d.mk (Quaterniond.mk 0 0 0 0) (Vector3.mk 1 2 3))
      (Rigid3d.default : Rigid3d ℝ)).rotation.norm Real.sqrt = 0 ∧
    (Rigid3d.mul Real.sqrt (Rigid3d.mk (Quaterniond.mk 0 0 0 0) (Vector3.mk 1 2 3))
      (Rigid3d.default : Rigid3d ℝ)).rotation.norm Real.sqrt ≠ 1 ∧
    Rigid3d.composeSpec Real.sqrt (Rigid3d.mk (Quaterniond.mk 0 0 0 0) (Vector3.mk 1 2 3))
      (Rigid3d.default : Rigid3d ℝ) = none ∧
    (Rigid3d.mul F64.sqrt (Rigid3d.default : Rigid3d F64)
      (Rigid3d.mk (Quaterniond.mk 1 0 1 0) (Vector3.mk 0 0 0))).rotation
      = Quaterniond.mk (F64.finite 1592262918131443 (-51)) 0
          (F64.finite 1592262918131443 (-51)) 0 ∧
    (Rigid3d.mul F64.sqrt (Rigid3d.default : Rigid3d F64)
      (Rigid3d.mk (Quaterniond.mk 1 0 1 0) (Vector3.mk 0 0 0))).rotation.norm F64.sqrt
      = F64.finite 9007199254740991 (-53) ∧
    (Rigid3d.mul F64.sqrt (Rigid3d.default : Rigid3d F64)
      (Rigid3d.mk (Quaterniond.mk 1 0 1 0) (Vector3.mk 0 0 0))).rotation.norm F64.sqrt ≠ 1 := by
  have hrot : (Rigid3d.mul Real.sqrt (Rigid3d.mk (Quaterniond.mk 0 0 0 0) (Vector3.mk 1 2 3))
      (Rigid3d.default : Rigid3d ℝ)).rotation = ⟨0, 0, 0, 0⟩ := by
    simp [Rigid3d.mul, Rigid3d.default, Quaterniond.Identity, Quaterniond.mul,
      Quaterniond.normalized, Quaterniond.squaredNorm]
  have hnorm : (Rigid3d.mul Real.sqrt (Rigid3d.mk (Quaterniond.mk 0 0 0 0) (Vector3.mk 1 2 3))
      (Rigid3d.default : Rigid3d ℝ)).rotation.norm Real.sqrt = 0 := by
    rw [hrot]
    simp [Quaterniond.norm, Quaterniond.squaredNorm]
  refine ⟨hrot, hnorm, ?_, ?_, by decide!, by decide!, by decide!⟩
  · rw [hnorm]
    norm_num
  · apply Rigid3d.composeSpec_eq_none
    simp [Rigid3d.default, Quaterniond.Identity, Quaterniond.mul, Quaterniond.norm,
      Quaterniond.squaredNorm]

/-- C7, as amended (composition formula, in exact real arithmetic, for a non-zero
product). For all `Rigid3d` cFromB, bFromA over the reals whose quaternion product
`cFromB.rotation * bFromA.rotation` is not the zero quaternion, `cFromB * bFromA` is
the composition worded by the specification (`composeSpec`): its rotation is the
product divided by its norm, a quaternion of norm exactly 1, and its translation is
`cFromB.translation + cFromB.rotation · bFromA.translation`, the rotation acting as
its rotation matrix. The operands are arguments of a pure function and are not
changed. -/
theorem C7_composition_formula (cFromB bFromA : Rigid3d ℝ)
    (h : cFromB.rotation.mul bFromA.rotation ≠ ⟨0, 0, 0, 0⟩) :
    Rigid3d.composeSpec Real.sqrt cFromB bFromA = some (Rigid3d.mul Real.sqrt cFromB bFromA) ∧
    (Rigid3d.mul Real.sqrt cFromB bFromA).rotation
      = Quaterniond.scale (1 / (cFromB.rotation.mul bFromA.rotation).norm Real.sqrt)
          (cFromB.rotation.mul bFromA.rotation) ∧
    (Rigid3d.mul Real.sqrt cFromB bFromA).rotation.norm Real.sqrt = 1 ∧
    (Rigid3d.mul Real.sqrt cFromB bFromA).translation
      = cFromB.translation.add (cFromB.rotation.toRotationMatrix.mulVec bFromA.translation) := by
  refine ⟨Rigid3d.composeSpec_eq_some Real.sqrt cFromB bFromA
    (Quaterniond.norm_pos_of_ne_zero _ h), ?_, ?_, ?_⟩
  · exact Quaterniond.normalized_eq_scale Real.sqrt _
  · exact (Quaterniond.norm_eq_one_iff _).mpr
      (Quaterniond.squaredNorm_normalized_real _ (Quaterniond.squaredNorm_pos_of_ne_zero _ h))
  · show cFromB.translation.add (cFromB.rotation.transformVector bFromA.translation) = _
    rw [Quaterniond.transformVector_eq_mulVec]

/-- Witness of C7 at two rotations that are not of norm 1, (2, 0, 0, 0) and
(0, 3, 0, 0): the product is (0, 6, 0, 0) and the composed rotation has norm 1. -/
theorem C7_composition_formula_witness :
    (Quaterniond.mk (2 : ℝ) 0 0 0).mul (Quaterniond.mk 0 3 0 0) ≠ ⟨0, 0, 0, 0⟩ ∧
    Rigid3d.composeSpec Real.sqrt
        (Rigid3d.mk (Quaterniond.mk (2 : ℝ) 0 0 0) (Vector3.mk 1 2 3))
        (Rigid3d.mk (Quaterniond.mk 0 3 0 0) (Vector3.mk 0 1 0))
      = some (Rigid3d.mul Real.sqrt
        (Rigid3d.mk (Quaterniond.mk (2 : ℝ) 0 0 0) (Vector3.mk 1 2 3))
        (Rigid3d.mk (Quaterniond.mk 0 3 0 0) (Vector3.mk 0 1 0))) ∧
    (Rigid3d.mul Real.sqrt (Rigid3d.mk (Quaterniond.mk (2 : ℝ) 0 0 0) (Vector3.mk 1 2 3))
      (Rigid3d.mk (Quaterniond.mk 0 3 0 0) (Vector3.mk 0 1 0))).rotation.norm Real.sqrt = 1 :=
  have hne : (Quaterniond.mk (2 : ℝ) 0 0 0).mul (Quaterniond.mk 0 3 0 0) ≠ ⟨0, 0, 0, 0⟩ := by
    simp [Quaterniond.mul]
  ⟨hne,
    (C7_composition_formula
      (Rigid3d.mk (Quaterniond.mk (2 : ℝ) 0 0 0) (Vector3.mk 1 2 3))
      (Rigid3d.mk (Quaterniond.mk 0 3 0 0) (Vector3.mk 0 1 0)) hne).1,
    (C7_composition_formula
      (Rigid3d.mk (Quaterniond.mk (2 : ℝ) 0 0 0) (Vector3.mk 1 2 3))
      (Rigid3d.mk (Quaterniond.mk 0 3 0 0) (Vector3.mk 0 1 0)) hne).2.2.1⟩

/-- C10 (insufficient-data failure), on the engine modelled from the specification.
For every estimator, configuration, random source and every input with fewer than
`MinimalSampleSize` correspondence pairs, `Estimate` returns a report with
`success = false` (with the default model, no inlier and no trial executed), and the
call generates no candidate model: the record of the candidates produced by
`Estimator.Estimate` is empty. -/
theorem C10_insufficient_data {P M : Type} (est : ransac.Estimator P M)
    (opts : ransac.RANSACOptions) (num : ransac.Numerics M) (data : List P)
    (h : data.length < est.MinimalSampleSize) :
    (ransac.Estimate est opts num data).success = false ∧
    (ransac.Run est opts num data).generated = [] ∧
    (ransac.Estimate est opts num data).model = num.defaultModel ∧
    (ransac.Estimate est opts num data).num_inliers = 0 ∧
    (ransac.Estimate est opts num data).num_trials = 0 := by
  have hrun : ransac.Run est opts num data = ransac.Init est opts num :=
    ransac.Loop_insufficient est opts num data h _ _
  simp only [ransac.Estimate, hrun]
  simp [ransac.Init, ransac.Terminate]

/-- Witness of C10: five correspondences and an estimator of minimal sample size 6
that would return a candidate from any sample it is given. -/
theorem C10_insufficient_data_witness :
    ([10, 20, 30, 40, 50] : List Nat).length
      < (⟨6, fun s => [s.sum], fun d _ => d.map fun _ => some 0⟩ :
          ransac.Estimator Nat Nat).MinimalSampleSize ∧
    (ransac.Estimate
      (⟨6, fun s => [s.sum], fun d _ => d.map fun _ => some 0⟩ : ransac.Estimator Nat Nat)
      ⟨1 / 1000, 1 / 2, 99 / 100, 100, true, 3⟩
      ⟨fun seed k _ => (List.range k, seed + 1), fun _ _ _ => 50, 1 / 10, 0, 0⟩
      [10, 20, 30, 40, 50]).success = false ∧
    (ransac.Run
      (⟨6, fun s => [s.sum], fun d _ => d.map fun _ => some 0⟩ : ransac.Estimator Nat Nat)
      ⟨1 / 1000, 1 / 2, 99 / 100, 100, true, 3⟩
      ⟨fun seed k _ => (List.range k, seed + 1), fun _ _ _ => 50, 1 / 10, 0, 0⟩
      [10, 20, 30, 40, 50]).generated = [] :=
  have h : ([10, 20, 30, 40, 50] : List Nat).length
      < (⟨6, fun s => [s.sum], fun d _ => d.map fun _ => some 0⟩ :
          ransac.Estimator Nat Nat).MinimalSampleSize := by
    decide
  ⟨h, (C10_insufficient_data _ _ _ _ h).1, (C10_insufficient_data _ _ _ _ h).2.1⟩

/-- C11, as amended (the unit-norm invariant is preserved by the operations, in exact
real arithmetic). Over the reals:
the default-constructed `Rigid3d` has a rotation of norm 1; for every T with rotation
of norm 1, `T.Inverse()` has a rotation of norm 1; and for every cFromB, bFromA whose
rotations are both different from the zero quaternion (of norm 1 or not),
`cFromB * bFromA` has a rotation of norm exactly 1. -/
theorem C11_unit_norm_preserved (T cFromB bFromA : Rigid3d ℝ)
    (hT : T.rotation.norm Real.sqrt = 1)
    (hc : cFromB.rotation ≠ ⟨0, 0, 0, 0⟩) (hb : bFromA.rotation ≠ ⟨0, 0, 0, 0⟩) :
    (Rigid3d.default : Rigid3d ℝ).rotation.norm Real.sqrt = 1 ∧
    T.Inverse.rotation.norm Real.sqrt = 1 ∧
    (Rigid3d.mul Real.sqrt cFromB bFromA).rotation.norm Real.sqrt = 1 := by
  refine ⟨?_, ?_, ?_⟩
  · exact (Quaterniond.norm_eq_one_iff _).mpr Quaterniond.squaredNorm_Identity
  · exact (Quaterniond.norm_eq_one_iff _).mpr
      (Rigid3d.squaredNorm_Inverse_of_unit T ((Quaterniond.norm_eq_one_iff _).mp hT))
  · exact (Quaterniond.norm_eq_one_iff _).mpr
      (Quaterniond.squaredNorm_normalized_real _ (Quaterniond.squaredNorm_mul_pos _ _ hc hb))

/-- Witness of C11 at T with rotation (3/5, 4/5, 0, 0) and at the operands with
rotations (2, 0, 0, 0) and (0, 3, 0, 0), which are not of norm 1. -/
theorem C11_unit_norm_preserved_witness :
    (Rigid3d.mk (Quaterniond.mk (3 / 5) (4 / 5) 0 0) (Vector3.mk 1 2 3) :
        Rigid3d ℝ).rotation.norm Real.sqrt = 1 ∧
    (Rigid3d.mk (Quaterniond.mk (2 : ℝ) 0 0 0) (Vector3.mk 1 2 3)).rotation ≠ ⟨0, 0, 0, 0⟩ ∧
    (Rigid3d.mk (Quaterniond.mk (0 : ℝ) 3 0 0) (Vector3.mk 0 1 0)).rotation ≠ ⟨0, 0, 0, 0⟩ ∧
    (Rigid3d.mk (Quaterniond.mk (3 / 5) (4 / 5) 0 0) (Vector3.mk 1 2 3) :
        Rigid3d ℝ).Inverse.rotation.norm Real.sqrt = 1 ∧
    (Rigid3d.mul Real.sqrt (Rigid3d.mk (Quaterniond.mk (2 : ℝ) 0 0 0) (Vector3.mk 1 2 3))
      (Rigid3d.mk (Quaterniond.mk 0 3 0 0) (Vector3.mk 0 1 0))).rotation.norm Real.sqrt = 1 :=
  have hT : (Rigid3d.mk (Quaterniond.mk (3 / 5) (4 / 5) 0 0) (Vector3.mk 1 2 3) :
      Rigid3d ℝ).rotation.norm Real.sqrt = 1 :=
    (Quaterniond.norm_eq_one_iff _).mpr (by norm_num [Quaterniond.squaredNorm])
  have hc : (Rigid3d.mk (Quaterniond.mk (2 : ℝ) 0 0 0) (Vector3.mk 1 2 3)).rotation
      ≠ ⟨0, 0, 0, 0⟩ := by simp
  have hb : (Rigid3d.mk (Quaterniond.mk (0 : ℝ) 3 0 0) (Vector3.mk 0 1 0)).rotation
      ≠ ⟨0, 0, 0, 0⟩ := by simp
  ⟨hT, hc, hb, (C11_unit_norm_preserved _ _ _ hT hc hb).2⟩

/-- C12, as amended (the test's rig geometry is consistent with its ground truth, in
exact real arithmetic). For all
`Rigid3d` camFromWorld, refFromWorld over the reals with rotations of norm 1 and every
3-vector X, the rig-local transform `iFromRef = camFromWorld * refFromWorld.Inverse()`
satisfies `iFromRef.Matrix() * (refFromWorld * X, 1) = camFromWorld * X`; in
particular, for all loop values `qx`, `tx` and every camera `i` of the test,
`rel_tforms[i] * (testCamFromWorlds[kRefTform] * X, 1) = testCamFromWorlds[i] * X`. -/
theorem C12_rig_consistency (camFromWorld refFromWorld : Rigid3d ℝ) (X : Vector3 ℝ)
    (hcam : camFromWorld.rotation.norm Real.sqrt = 1)
    (href : refFromWorld.rotation.norm Real.sqrt = 1) (qx tx : ℝ) (i : Fin 3) :
    (Rigid3d.mul Real.sqrt camFromWorld refFromWorld.Inverse).Matrix.mulVec
        (refFromWorld.mulPoint X).homogeneous = camFromWorld.mulPoint X ∧
    (rel_tforms Real.sqrt qx tx i).mulVec
        ((testCamFromWorlds Real.sqrt qx tx kRefTform).mulPoint X).homogeneous
      = (testCamFromWorlds Real.sqrt qx tx i).mulPoint X := by
  have key : ∀ c r : Rigid3d ℝ, c.rotation.squaredNorm = 1 → r.rotation.squaredNorm = 1 →
      (Rigid3d.mul Real.sqrt c r.Inverse).Matrix.mulVec (r.mulPoint X).homogeneous
        = c.mulPoint X := by
    intro c r hc hr
    rw [Rigid3d.Matrix_mulVec_homogeneous,
      Rigid3d.mulPoint_mul_of_unit Real.sqrt Real.sqrt_one c r.Inverse _ hc
        (Rigid3d.squaredNorm_Inverse_of_unit r hr),
      Rigid3d.Inverse_mulPoint_of_unit r X hr]
  exact ⟨key _ _ ((Quaterniond.norm_eq_one_iff _).mp hcam) ((Quaterniond.norm_eq_one_iff _).mp href),
    key _ _ (testCamFromWorlds_unit qx tx i) (testCamFromWorlds_unit qx tx kRefTform)⟩

/-- Witness of C12 at two rotations about different axes, the point (1, -2, 5), and
the test's loop values qx = 0, tx = 0 with camera 2. -/
theorem C12_rig_consistency_witness :
    (Rigid3d.mk (Quaterniond.mk (4 / 5) 0 0 (3 / 5)) (Vector3.mk 2 0 1) :
        Rigid3d ℝ).rotation.norm Real.sqrt = 1 ∧
    (Rigid3d.mk (Quaterniond.mk (5 / 13) 0 (12 / 13) 0) (Vector3.mk 0 1 0) :
        Rigid3d ℝ).rotation.norm Real.sqrt = 1 ∧
    (Rigid3d.mul Real.sqrt
        (Rigid3d.mk (Quaterniond.mk (4 / 5) 0 0 (3 / 5)) (Vector3.mk 2 0 1))
        (Rigid3d.mk (Quaterniond.mk (5 / 13) 0 (12 / 13) 0) (Vector3.mk 0 1 0)).Inverse).Matrix.mulVec
        ((Rigid3d.mk (Quaterniond.mk (5 / 13) 0 (12 / 13) 0) (Vector3.mk 0 1 0)).mulPoint
          (Vector3.mk 1 (-2) 5)).homogeneous
      = (Rigid3d.mk (Quaterniond.mk (4 / 5) 0 0 (3 / 5)) (Vector3.mk 2 0 1)).mulPoint
        (Vector3.mk 1 (-2) 5) ∧
    (rel_tforms Real.sqrt (0 : ℝ) 0 2).mulVec
        ((testCamFromWorlds Real.sqrt (0 : ℝ) 0 kRefTform).mulPoint
          (Vector3.mk 1 (-2) 5)).homogeneous
      = (testCamFromWorlds Real.sqrt (0 : ℝ) 0 2).mulPoint (Vector3.mk 1 (-2) 5) :=
  have hC : (Rigid3d.mk (Quaterniond.mk (4 / 5) 0 0 (3 / 5)) (Vector3.mk 2 0 1) :
      Rigid3d ℝ).rotation.norm Real.sqrt = 1 :=
    (Quaterniond.norm_eq_one_iff _).mpr (by norm_num [Quaterniond.squaredNorm])
  have hR : (Rigid3d.mk (Quaterniond.mk (5 / 13) 0 (12 / 13) 0) (Vector3.mk 0 1 0) :
      Rigid3d ℝ).rotation.norm Real.sqrt = 1 :=
    (Quaterniond.norm_eq_one_iff _).mpr (by norm_num [Quaterniond.squaredNorm])
  ⟨hC, hR, C12_rig_consistency _ _ (Vector3.mk 1 (-2) 5) hC hR 0 0 2⟩

/-- C13, as amended (the inverse of a composition reverses the order, in exact real
arithmetic). For all `Rigid3d` A, B
over the reals with rotations of norm 1, `(A * B).Inverse() = B.Inverse() * A.Inverse()`:
equal rotation and equal translation. -/
theorem C13_inverse_of_composition (A B : Rigid3d ℝ) (hA : A.rotation.norm Real.sqrt = 1)
    (hB : B.rotation.norm Real.sqrt = 1) :
    (Rigid3d.mul Real.sqrt A B).Inverse = Rigid3d.mul Real.sqrt B.Inverse A.Inverse :=
  Rigid3d.Inverse_mul_of_unit Real.sqrt Real.sqrt_one A B
    ((Quaterniond.norm_eq_one_iff _).mp hA) ((Quaterniond.norm_eq_one_iff _).mp hB)

/-- Witness of C13 at two rotations about different axes. -/
theorem C13_inverse_of_composition_witness :
    (Rigid3d.mk (Quaterniond.mk (4 / 5) 0 0 (3 / 5)) (Vector3.mk 2 0 1) :
        Rigid3d ℝ).rotation.norm Real.sqrt = 1 ∧
    (Rigid3d.mk (Quaterniond.mk (5 / 13) 0 (12 / 13) 0) (Vector3.mk 0 1 0) :
        Rigid3d ℝ).rotation.norm Real.sqrt = 1 ∧
    (Rigid3d.mul Real.sqrt
        (Rigid3d.mk (Quaterniond.mk (4 / 5) 0 0 (3 / 5)) (Vector3.mk 2 0 1))
        (Rigid3d.mk (Quaterniond.mk (5 / 13) 0 (12 / 13) 0) (Vector3.mk 0 1 0))).Inverse
      = Rigid3d.mul Real.sqrt
        (Rigid3d.mk (Quaterniond.mk (5 / 13) 0 (12 / 13) 0) (Vector3.mk 0 1 0)).Inverse
        (Rigid3d.mk (Quaterniond.mk (4 / 5) 0 0 (3 / 5)) (Vector3.mk 2 0 1)).Inverse :=
  have hA : (Rigid3d.mk (Quaterniond.mk (4 / 5) 0 0 (3 / 5)) (Vector3.mk 2 0 1) :
      Rigid3d ℝ).rotation.norm Real.sqrt = 1 :=
    (Quaterniond.norm_eq_one_iff _).mpr (by norm_num [Quaterniond.squaredNorm])
  have hB : (Rigid3d.mk (Quaterniond.mk (5 / 13) 0 (12 / 13) 0) (Vector3.mk 0 1 0) :
      Rigid3d ℝ).rotation.norm Real.sqrt = 1 :=
    (Quaterniond.norm_eq_one_iff _).mpr (by norm_num [Quaterniond.squaredNorm])
  ⟨hA, hB, C13_inverse_of_composition _ _ hA hB⟩

/-- C14, as amended (the inverse is an involution, in exact real arithmetic). For
every `Rigid3d` T over the reals with
rotation of norm 1, `T.Inverse().Inverse() = T`: same rotation and same translation. -/
theorem C14_inverse_involution (T : Rigid3d ℝ) (hT : T.rotation.norm Real.sqrt = 1) :
    T.Inverse.Inverse = T :=
  Rigid3d.Inverse_Inverse_of_unit T ((Quaterniond.norm_eq_one_iff _).mp hT)

/-- Witness of C14 at the rotation (3/5, 4/5, 0, 0) and translation (1, 2, 3). -/
theorem C14_inverse_involution_witness :
    (Rigid3d.mk (Quaterniond.mk (3 / 5) (4 / 5) 0 0) (Vector3.mk 1 2 3) :
        Rigid3d ℝ).rotation.norm Real.sqrt = 1 ∧
    (Rigid3d.mk (Quaterniond.mk (3 / 5) (4 / 5) 0 0) (Vector3.mk 1 2 3) :
        Rigid3d ℝ).Inverse.Inverse
      = Rigid3d.mk (Quaterniond.mk (3 / 5) (4 / 5) 0 0) (Vector3.mk 1 2 3) :=
  have h : (Rigid3d.mk (Quaterniond.mk (3 / 5) (4 / 5) 0 0) (Vector3.mk 1 2 3) :
      Rigid3d ℝ).rotation.norm Real.sqrt = 1 :=
    (Quaterniond.norm_eq_one_iff _).mpr (by norm_num [Quaterniond.squaredNorm])
  ⟨h, C14_inverse_involution _ h⟩

/-- C15 (the default-constructed `Rigid3d` is the identity element). Over the reals:
`Rigid3d() * x = x` for every 3-vector x, `Rigid3d().Inverse() = Rigid3d()`, and for
every T with rotation of norm 1, `Rigid3d() * T = T` and `T * Rigid3d() = T`. -/
theorem C15_default_identity (T : Rigid3d ℝ) (x : Vector3 ℝ)
    (hT : T.rotation.norm Real.sqrt = 1) :
    (Rigid3d.default : Rigid3d ℝ).mulPoint x = x ∧
    (Rigid3d.default : Rigid3d ℝ).Inverse = Rigid3d.default ∧
    Rigid3d.mul Real.sqrt Rigid3d.default T = T ∧
    Rigid3d.mul Real.sqrt T Rigid3d.default = T :=
  ⟨Rigid3d.default_mulPoint x, Rigid3d.default_Inverse,
   Rigid3d.default_mul_of_unit Real.sqrt Real.sqrt_one T ((Quaterniond.norm_eq_one_iff _).mp hT),
   Rigid3d.mul_default_of_unit Real.sqrt Real.sqrt_one T ((Quaterniond.norm_eq_one_iff _).mp hT)⟩

/-- Witness of C15 at the rotation (3/5, 4/5, 0, 0), translation (1, 2, 3) and the
point (1, -2, 5). -/
theorem C15_default_identity_witness :
    (Rigid3d.mk (Quaterniond.mk (3 / 5) (4 / 5) 0 0) (Vector3.mk 1 2 3) :
        Rigid3d ℝ).rotation.norm Real.sqrt = 1 ∧
    (Rigid3d.default : Rigid3d ℝ).mulPoint (Vector3.mk 1 (-2) 5) = Vector3.mk 1 (-2) 5 ∧
    (Rigid3d.default : Rigid3d ℝ).Inverse = Rigid3d.default ∧
    Rigid3d.mul Real.sqrt Rigid3d.default
        (Rigid3d.mk (Quaterniond.mk (3 / 5) (4 / 5) 0 0) (Vector3.mk 1 2 3))
      = Rigid3d.mk (Quaterniond.mk (3 / 5) (4 / 5) 0 0) (Vector3.mk 1 2 3) ∧
    Rigid3d.mul Real.sqrt (Rigid3d.mk (Quaterniond.mk (3 / 5) (4 / 5) 0 0) (Vector3.mk 1 2 3))
        Rigid3d.default
      = Rigid3d.mk (Quaterniond.mk (3 / 5) (4 / 5) 0 0) (Vector3.mk 1 2 3) :=
  have h : (Rigid3d.mk (Quaterniond.mk (3 / 5) (4 / 5) 0 0) (Vector3.mk 1 2 3) :
      Rigid3d ℝ).rotation.norm Real.sqrt = 1 :=
    (Quaterniond.norm_eq_one_iff _).mpr (by norm_num [Quaterniond.squaredNorm])
  ⟨h, C15_default_identity _ (Vector3.mk 1 (-2) 5) h⟩

/-- C16, as amended (the transform is rigid, in exact real arithmetic). For every `Rigid3d` T over the reals with rotation
of norm 1 and all 3-vectors x, y, the Euclidean distance between `T * x` and `T * y`
equals the distance between x and y. -/
theorem C16_distance_preserving (T : Rigid3d ℝ) (x y : Vector3 ℝ)
    (hT : T.rotation.norm Real.sqrt = 1) :
    Vector3.distance Real.sqrt (T.mulPoint x) (T.mulPoint y) = Vector3.distance Real.sqrt x y := by
  unfold Vector3.distance Vector3.norm
  rw [Rigid3d.mulPoint_sub,
    Quaterniond.squaredNorm_transformVector _ _ ((Quaterniond.norm_eq_one_iff _).mp hT)]

/-- Witness of C16 at the rotation (3/5, 4/5, 0, 0), translation (1, 2, 3) and the
points (1, -2, 5) and (0, 4, 1). -/
theorem C16_distance_preserving_witness :
    (Rigid3d.mk (Quaterniond.mk (3 / 5) (4 / 5) 0 0) (Vector3.mk 1 2 3) :
        Rigid3d ℝ).rotation.norm Real.sqrt = 1 ∧
    Vector3.distance Real.sqrt
        ((Rigid3d.mk (Quaterniond.mk (3 / 5) (4 / 5) 0 0) (Vector3.mk 1 2 3) :
          Rigid3d ℝ).mulPoint (Vector3.mk 1 (-2) 5))
        ((Rigid3d.mk (Quaterniond.mk (3 / 5) (4 / 5) 0 0) (Vector3.mk 1 2 3) :
          Rigid3d ℝ).mulPoint (Vector3.mk 0 4 1))
      = Vector3.distance Real.sqrt (Vector3.mk 1 (-2) 5) (Vector3.mk 0 4 1) :=
  have h : (Rigid3d.mk (Quaterniond.mk (3 / 5) (4 / 5) 0 0) (Vector3.mk 1 2 3) :
      Rigid3d ℝ).rotation.norm Real.sqrt = 1 :=
    (Quaterniond.norm_eq_one_iff _).mpr (by norm_num [Quaterniond.squaredNorm])
  ⟨h, C16_distance_preserving _ _ _ h⟩

/-- C17 (renormalisation does not change the result on valid inputs). For all
`Rigid3d` cFromB, bFromA over the reals with rotations of norm 1, `cFromB * bFromA`
computed with the `.normalized()` step equals the composition computed without it;
the rotation of `cFromB * bFromA` is exactly the quaternion product
`cFromB.rotation * bFromA.rotation`. -/
theorem C17_normalized_is_noop (cFromB bFromA : Rigid3d ℝ)
    (hc : cFromB.rotation.norm Real.sqrt = 1) (hb : bFromA.rotation.norm Real.sqrt = 1) :
    Rigid3d.mul Real.sqrt cFromB bFromA = Rigid3d.mulWithoutNormalized cFromB bFromA ∧
    (Rigid3d.mul Real.sqrt cFromB bFromA).rotation = cFromB.rotation.mul bFromA.rotation := by
  have h := Rigid3d.mul_eq_mulWithoutNormalized Real.sqrt Real.sqrt_one cFromB bFromA
    ((Quaterniond.norm_eq_one_iff _).mp hc) ((Quaterniond.norm_eq_one_iff _).mp hb)
  refine ⟨h, ?_⟩
  rw [h]
  rfl

/-- Witness of C17 at two rotations about different axes. -/
theorem C17_normalized_is_noop_witness :
    (Rigid3d.mk (Quaterniond.mk (4 / 5) 0 0 (3 / 5)) (Vector3.mk 2 0 1) :
        Rigid3d ℝ).rotation.norm Real.sqrt = 1 ∧
    (Rigid3d.mk (Quaterniond.mk (5 / 13) 0 (12 / 13) 0) (Vector3.mk 0 1 0) :
        Rigid3d ℝ).rotation.norm Real.sqrt = 1 ∧
    (Rigid3d.mul Real.sqrt
        (Rigid3d.mk (Quaterniond.mk (4 / 5) 0 0 (3 / 5)) (Vector3.mk 2 0 1))
        (Rigid3d.mk (Quaterniond.mk (5 / 13) 0 (12 / 13) 0) (Vector3.mk 0 1 0))).rotation
      = (Quaterniond.mk (4 / 5) 0 0 (3 / 5)).mul (Quaterniond.mk (5 / 13) 0 (12 / 13) 0) :=
  have hC : (Rigid3d.mk (Quaterniond.mk (4 / 5) 0 0 (3 / 5)) (Vector3.mk 2 0 1) :
      Rigid3d ℝ).rotation.norm Real.sqrt = 1 :=
    (Quaterniond.norm_eq_one_iff _).mpr (by norm_num [Quaterniond.squaredNorm])
  have hB : (Rigid3d.mk (Quaterniond.mk (5 / 13) 0 (12 / 13) 0) (Vector3.mk 0 1 0) :
      Rigid3d ℝ).rotation.norm Real.sqrt = 1 :=
    (Quaterniond.norm_eq_one_iff _).mpr (by norm_num [Quaterniond.squaredNorm])
  ⟨hC, hB, (C17_normalized_is_noop _ _ hC hB).2⟩

/-! ### Counterexamples in the arithmetic of `double`

The inputs below are finite doubles; `F64.finite m e` is the double `m * 2^e`, so
`F64.finite 1 53` is `2^53` and `1 / 2` evaluates to `F64.finite 1 (-1)`. Rotations
are the identity or `(1/2, 1/2, 1/2, 1/2)`, whose `norm()` is exactly 1 in `double`.
Except in the counterexamples to C7 and C11, every product that occurs has a factor
0, 1, 1/2 or 2 and is exact, so that only additions round. -/

/-- Counterexample to C3 as stated, on the code in `double`: with
`cFromB = bFromA = Rigid3d(Identity, (1, 0, 0))` and `x = (2^53, 0, 0)` the rotations
have norm 1, `(cFromB * bFromA) * x` is `(2^53 + 2, 0, 0)` and `cFromB * (bFromA * x)`
is `(2^53, 0, 0)`, because `2^53 + 1` rounds to `2^53`. -/
theorem C3_counterexample :
    (⟨⟨1, 0, 0, 0⟩, ⟨1, 0, 0⟩⟩ : Rigid3d F64).rotation.norm F64.sqrt = 1 ∧
    (Rigid3d.mul F64.sqrt (⟨⟨1, 0, 0, 0⟩, ⟨1, 0, 0⟩⟩ : Rigid3d F64) (⟨⟨1, 0, 0, 0⟩, ⟨1, 0, 0⟩⟩ : Rigid3d F64)).mulPoint
        (⟨F64.finite 1 53, 0, 0⟩ : Vector3 F64)
      = ⟨F64.finite 4503599627370497 1, 0, 0⟩ ∧
    (⟨⟨1, 0, 0, 0⟩, ⟨1, 0, 0⟩⟩ : Rigid3d F64).mulPoint
        ((⟨⟨1, 0, 0, 0⟩, ⟨1, 0, 0⟩⟩ : Rigid3d F64).mulPoint (⟨F64.finite 1 53, 0, 0⟩ : Vector3 F64))
      = ⟨F64.finite 1 53, 0, 0⟩ ∧
    (Rigid3d.mul F64.sqrt (⟨⟨1, 0, 0, 0⟩, ⟨1, 0, 0⟩⟩ : Rigid3d F64) (⟨⟨1, 0, 0, 0⟩, ⟨1, 0, 0⟩⟩ : Rigid3d F64)).mulPoint
        (⟨F64.finite 1 53, 0, 0⟩ : Vector3 F64)
      ≠ (⟨⟨1, 0, 0, 0⟩, ⟨1, 0, 0⟩⟩ : Rigid3d F64).mulPoint
        ((⟨⟨1, 0, 0, 0⟩, ⟨1, 0, 0⟩⟩ : Rigid3d F64).mulPoint (⟨F64.finite 1 53, 0, 0⟩ : Vector3 F64)) := by
  decide!

/-- Counterexample to C4 as stated, on the code in `double`: with
`T = Rigid3d(Identity, (1, 0, 0))` and `x = (2^53, 0, 0)` the rotation has norm 1,
`T * x` is `(2^53, 0, 0)` and `T.Inverse() * (T * x)` is `(2^53 - 1, 0, 0)`, not `x`. -/
theorem C4_counterexample :
    (⟨⟨1, 0, 0, 0⟩, ⟨1, 0, 0⟩⟩ : Rigid3d F64).rotation.norm F64.sqrt = 1 ∧
    (⟨⟨1, 0, 0, 0⟩, ⟨1, 0, 0⟩⟩ : Rigid3d F64).mulPoint (⟨F64.finite 1 53, 0, 0⟩ : Vector3 F64)
      = ⟨F64.finite 1 53, 0, 0⟩ ∧
    (⟨⟨1, 0, 0, 0⟩, ⟨1, 0, 0⟩⟩ : Rigid3d F64).Inverse.mulPoint
        ((⟨⟨1, 0, 0, 0⟩, ⟨1, 0, 0⟩⟩ : Rigid3d F64).mulPoint (⟨F64.finite 1 53, 0, 0⟩ : Vector3 F64))
      = ⟨F64.finite 9007199254740991 0, 0, 0⟩ ∧
    (⟨⟨1, 0, 0, 0⟩, ⟨1, 0, 0⟩⟩ : Rigid3d F64).Inverse.mulPoint
        ((⟨⟨1, 0, 0, 0⟩, ⟨1, 0, 0⟩⟩ : Rigid3d F64).mulPoint (⟨F64.finite 1 53, 0, 0⟩ : Vector3 F64))
      ≠ (⟨F64.finite 1 53, 0, 0⟩ : Vector3 F64) := by
  decide!

/-- Counterexample to C6 as stated, on the code in `double`: with the rotation
`(1/2, 1/2, 1/2, 1/2)` of norm 1, zero translation and `x = (0, 1, 2^53)`, the product
`T.Matrix() * (x, 1)` is `(2^53, 0, 1)` and `T * x` is `(2^53, 0, 0)`. -/
theorem C6_counterexample :
    (⟨⟨1 / 2, 1 / 2, 1 / 2, 1 / 2⟩, ⟨0, 0, 0⟩⟩ : Rigid3d F64).rotation.norm F64.sqrt = 1 ∧
    (⟨⟨1 / 2, 1 / 2, 1 / 2, 1 / 2⟩, ⟨0, 0, 0⟩⟩ : Rigid3d F64).Matrix.mulVec
        (⟨0, 1, F64.finite 1 53⟩ : Vector3 F64).homogeneous
      = ⟨F64.finite 1 53, 0, 1⟩ ∧
    (⟨⟨1 / 2, 1 / 2, 1 / 2, 1 / 2⟩, ⟨0, 0, 0⟩⟩ : Rigid3d F64).mulPoint
        (⟨0, 1, F64.finite 1 53⟩ : Vector3 F64)
      = ⟨F64.finite 1 53, 0, 0⟩ ∧
    (⟨⟨1 / 2, 1 / 2, 1 / 2, 1 / 2⟩, ⟨0, 0, 0⟩⟩ : Rigid3d F64).Matrix.mulVec
        (⟨0, 1, F64.finite 1 53⟩ : Vector3 F64).homogeneous
      ≠ (⟨⟨1 / 2, 1 / 2, 1 / 2, 1 / 2⟩, ⟨0, 0, 0⟩⟩ : Rigid3d F64).mulPoint
        (⟨0, 1, F64.finite 1 53⟩ : Vector3 F64) := by
  decide!

/-- Counterexample to C11 as stated, on the code in `double`: the operands
`Rigid3d(Quaterniond(1, 1, 0, 0), 0)` and `Rigid3d()` have non-zero rotations and
their composition has the rotation `(a, a, 0, 0)` with `a = 0x1.6a09e667f3bccp-1`, of
norm `1 - 2^-53`; the operands with rotation `(2^-600, 0, 0, 0)` have non-zero
rotations and their composition has the zero quaternion as rotation, of norm 0. -/
theorem C11_counterexample :
    (⟨⟨1, 1, 0, 0⟩, ⟨0, 0, 0⟩⟩ : Rigid3d F64).rotation ≠ ⟨0, 0, 0, 0⟩ ∧
    (Rigid3d.default : Rigid3d F64).rotation ≠ ⟨0, 0, 0, 0⟩ ∧
    (Rigid3d.mul F64.sqrt (⟨⟨1, 1, 0, 0⟩, ⟨0, 0, 0⟩⟩ : Rigid3d F64) (Rigid3d.default : Rigid3d F64)).rotation
      = ⟨F64.finite 1592262918131443 (-51), F64.finite 1592262918131443 (-51), 0, 0⟩ ∧
    (Rigid3d.mul F64.sqrt (⟨⟨1, 1, 0, 0⟩, ⟨0, 0, 0⟩⟩ : Rigid3d F64) (Rigid3d.default : Rigid3d F64)).rotation.norm
        F64.sqrt
      = F64.finite 9007199254740991 (-53) ∧
    (Rigid3d.mul F64.sqrt (⟨⟨1, 1, 0, 0⟩, ⟨0, 0, 0⟩⟩ : Rigid3d F64) (Rigid3d.default : Rigid3d F64)).rotation.norm
        F64.sqrt
      ≠ 1 ∧
    (⟨⟨F64.finite 1 (-600), 0, 0, 0⟩, ⟨0, 0, 0⟩⟩ : Rigid3d F64).rotation ≠ ⟨0, 0, 0, 0⟩ ∧
    (Rigid3d.mul F64.sqrt (⟨⟨F64.finite 1 (-600), 0, 0, 0⟩, ⟨0, 0, 0⟩⟩ : Rigid3d F64)
        (⟨⟨F64.finite 1 (-600), 0, 0, 0⟩, ⟨0, 0, 0⟩⟩ : Rigid3d F64)).rotation
      = ⟨0, 0, 0, 0⟩ ∧
    (Rigid3d.mul F64.sqrt (⟨⟨F64.finite 1 (-600), 0, 0, 0⟩, ⟨0, 0, 0⟩⟩ : Rigid3d F64)
        (⟨⟨F64.finite 1 (-600), 0, 0, 0⟩, ⟨0, 0, 0⟩⟩ : Rigid3d F64)).rotation.norm F64.sqrt
      ≠ 1 := by
  decide!

/-- Counterexample to C12 as stated, on the code in `double`: with
`camFromWorld = Rigid3d()`, `refFromWorld = Rigid3d(Identity, (2^53, 0, 0))` and
`X = (1, 0, 0)` the rotations have norm 1, `iFromRef.Matrix() * (refFromWorld * X, 1)`
is `(0, 0, 0)` and `camFromWorld * X` is `(1, 0, 0)`. -/
theorem C12_counterexample :
    (⟨⟨1, 0, 0, 0⟩, ⟨0, 0, 0⟩⟩ : Rigid3d F64).rotation.norm F64.sqrt = 1 ∧
    (⟨⟨1, 0, 0, 0⟩, ⟨F64.finite 1 53, 0, 0⟩⟩ : Rigid3d F64).rotation.norm F64.sqrt = 1 ∧
    (Rigid3d.mul F64.sqrt (⟨⟨1, 0, 0, 0⟩, ⟨0, 0, 0⟩⟩ : Rigid3d F64)
        (⟨⟨1, 0, 0, 0⟩, ⟨F64.finite 1 53, 0, 0⟩⟩ : Rigid3d F64).Inverse).Matrix.mulVec
        ((⟨⟨1, 0, 0, 0⟩, ⟨F64.finite 1 53, 0, 0⟩⟩ : Rigid3d F64).mulPoint
          (⟨1, 0, 0⟩ : Vector3 F64)).homogeneous
      = ⟨0, 0, 0⟩ ∧
    (⟨⟨1, 0, 0, 0⟩, ⟨0, 0, 0⟩⟩ : Rigid3d F64).mulPoint (⟨1, 0, 0⟩ : Vector3 F64) = ⟨1, 0, 0⟩ ∧
    (Rigid3d.mul F64.sqrt (⟨⟨1, 0, 0, 0⟩, ⟨0, 0, 0⟩⟩ : Rigid3d F64)
        (⟨⟨1, 0, 0, 0⟩, ⟨F64.finite 1 53, 0, 0⟩⟩ : Rigid3d F64).Inverse).Matrix.mulVec
        ((⟨⟨1, 0, 0, 0⟩, ⟨F64.finite 1 53, 0, 0⟩⟩ : Rigid3d F64).mulPoint
          (⟨1, 0, 0⟩ : Vector3 F64)).homogeneous
      ≠ (⟨⟨1, 0, 0, 0⟩, ⟨0, 0, 0⟩⟩ : Rigid3d F64).mulPoint (⟨1, 0, 0⟩ : Vector3 F64) := by
  decide!

/-- Counterexample to C13 as stated, on the code in `double`: with
`A = Rigid3d(Identity, (2^53, 0, 0))` and
`B = Rigid3d(Quaterniond(1/2, 1/2, 1/2, 1/2), (0, 1, 0))`, both rotations of norm 1,
`(A * B).Inverse()` has translation `(0, 0, -2^53)` and `B.Inverse() * A.Inverse()`
has translation `(-1, 0, -2^53)`. -/
theorem C13_counterexample :
    (⟨⟨1, 0, 0, 0⟩, ⟨F64.finite 1 53, 0, 0⟩⟩ : Rigid3d F64).rotation.norm F64.sqrt = 1 ∧
    (⟨⟨1 / 2, 1 / 2, 1 / 2, 1 / 2⟩, ⟨0, 1, 0⟩⟩ : Rigid3d F64).rotation.norm F64.sqrt = 1 ∧
    (Rigid3d.mul F64.sqrt (⟨⟨1, 0, 0, 0⟩, ⟨F64.finite 1 53, 0, 0⟩⟩ : Rigid3d F64)
        (⟨⟨1 / 2, 1 / 2, 1 / 2, 1 / 2⟩, ⟨0, 1, 0⟩⟩ : Rigid3d F64)).Inverse
      = ⟨⟨F64.finite 1 (-1), F64.finite (-1) (-1), F64.finite (-1) (-1), F64.finite (-1) (-1)⟩,
          ⟨0, 0, F64.finite (-1) 53⟩⟩ ∧
    Rigid3d.mul F64.sqrt (⟨⟨1 / 2, 1 / 2, 1 / 2, 1 / 2⟩, ⟨0, 1, 0⟩⟩ : Rigid3d F64).Inverse
        (⟨⟨1, 0, 0, 0⟩, ⟨F64.finite 1 53, 0, 0⟩⟩ : Rigid3d F64).Inverse
      = ⟨⟨F64.finite 1 (-1), F64.finite (-1) (-1), F64.finite (-1) (-1), F64.finite (-1) (-1)⟩,
          ⟨F64.finite (-1) 0, 0, F64.finite (-1) 53⟩⟩ ∧
    (Rigid3d.mul F64.sqrt (⟨⟨1, 0, 0, 0⟩, ⟨F64.finite 1 53, 0, 0⟩⟩ : Rigid3d F64)
        (⟨⟨1 / 2, 1 / 2, 1 / 2, 1 / 2⟩, ⟨0, 1, 0⟩⟩ : Rigid3d F64)).Inverse
      ≠ Rigid3d.mul F64.sqrt (⟨⟨1 / 2, 1 / 2, 1 / 2, 1 / 2⟩, ⟨0, 1, 0⟩⟩ : Rigid3d F64).Inverse
        (⟨⟨1, 0, 0, 0⟩, ⟨F64.finite 1 53, 0, 0⟩⟩ : Rigid3d F64).Inverse := by
  decide!

/-- Counterexample to C14 as stated, on the code in `double`: with
`T = Rigid3d(Quaterniond(1/2, 1/2, 1/2, 1/2), (0, 1, 2^53))`, of rotation norm 1,
`T.Inverse()` has translation `(-1/2, -2^53, 0)` and `T.Inverse().Inverse()` has
translation `(1/2, 0, 2^53)`. -/
theorem C14_counterexample :
    (⟨⟨1 / 2, 1 / 2, 1 / 2, 1 / 2⟩, ⟨0, 1, F64.finite 1 53⟩⟩ : Rigid3d F64).rotation.norm F64.sqrt = 1 ∧
    (⟨⟨1 / 2, 1 / 2, 1 / 2, 1 / 2⟩, ⟨0, 1, F64.finite 1 53⟩⟩ : Rigid3d F64).Inverse
      = ⟨⟨F64.finite 1 (-1), F64.finite (-1) (-1), F64.finite (-1) (-1), F64.finite (-1) (-1)⟩,
          ⟨F64.finite (-1) (-1), F64.finite (-1) 53, 0⟩⟩ ∧
    (⟨⟨1 / 2, 1 / 2, 1 / 2, 1 / 2⟩, ⟨0, 1, F64.finite 1 53⟩⟩ : Rigid3d F64).Inverse.Inverse
      = ⟨⟨F64.finite 1 (-1), F64.finite 1 (-1), F64.finite 1 (-1), F64.finite 1 (-1)⟩,
          ⟨F64.finite 1 (-1), 0, F64.finite 1 53⟩⟩ ∧
    (⟨⟨1 / 2, 1 / 2, 1 / 2, 1 / 2⟩, ⟨0, 1, F64.finite 1 53⟩⟩ : Rigid3d F64).Inverse.Inverse
      ≠ (⟨⟨1 / 2, 1 / 2, 1 / 2, 1 / 2⟩, ⟨0, 1, F64.finite 1 53⟩⟩ : Rigid3d F64) := by
  decide!

/-- Counterexample to C16 as stated, on the code in `double`: with
`T = Rigid3d(Identity, (1, 0, 0))`, `x = (2^53, 0, 0)` and `y = (2^53 + 2, 0, 0)` the
rotation has norm 1, `T * x` is `(2^53, 0, 0)` and `T * y` is `(2^53 + 4, 0, 0)`, at
distance 4, while `x` and `y` are at distance 2. -/
theorem C16_counterexample :
    (⟨⟨1, 0, 0, 0⟩, ⟨1, 0, 0⟩⟩ : Rigid3d F64).rotation.norm F64.sqrt = 1 ∧
    (⟨⟨1, 0, 0, 0⟩, ⟨1, 0, 0⟩⟩ : Rigid3d F64).mulPoint (⟨F64.finite 1 53, 0, 0⟩ : Vector3 F64)
      = ⟨F64.finite 1 53, 0, 0⟩ ∧
    (⟨⟨1, 0, 0, 0⟩, ⟨1, 0, 0⟩⟩ : Rigid3d F64).mulPoint (⟨F64.finite 4503599627370497 1, 0, 0⟩ : Vector3 F64)
      = ⟨F64.finite 2251799813685249 2, 0, 0⟩ ∧
    Vector3.distance F64.sqrt
        ((⟨⟨1, 0, 0, 0⟩, ⟨1, 0, 0⟩⟩ : Rigid3d F64).mulPoint (⟨F64.finite 1 53, 0, 0⟩ : Vector3 F64))
        ((⟨⟨1, 0, 0, 0⟩, ⟨1, 0, 0⟩⟩ : Rigid3d F64).mulPoint (⟨F64.finite 4503599627370497 1, 0, 0⟩ : Vector3 F64))
      = F64.finite 1 2 ∧
    Vector3.distance F64.sqrt (⟨F64.finite 1 53, 0, 0⟩ : Vector3 F64)
        (⟨F64.finite 4503599627370497 1, 0, 0⟩ : Vector3 F64)
      = F64.finite 1 1 ∧
    Vector3.distance F64.sqrt
        ((⟨⟨1, 0, 0, 0⟩, ⟨1, 0, 0⟩⟩ : Rigid3d F64).mulPoint (⟨F64.finite 1 53, 0, 0⟩ : Vector3 F64))
        ((⟨⟨1, 0, 0, 0⟩, ⟨1, 0, 0⟩⟩ : Rigid3d F64).mulPoint (⟨F64.finite 4503599627370497 1, 0, 0⟩ : Vector3 F64))
      ≠ Vector3.distance F64.sqrt (⟨F64.finite 1 53, 0, 0⟩ : Vector3 F64)
        (⟨F64.finite 4503599627370497 1, 0, 0⟩ : Vector3 F64) := by
  decide!

end claims

end colmap
